import Mathlib

/-!
Verification of the marketing-analytics dashboard (M2Project-MarketingVisualisation).

This file gives a shallow embedding of the parts of the repository that the
specification's claims are about:

* `src/utils/database.py` — config loading, the cached query executor and the
  `SELECT *` table loader (modelled as explicit state passing: the warehouse is
  an oracle `Query → Except error rows`, Streamlit's `st.cache_data(ttl=3600)`
  is an explicit cache keyed by the function arguments with stored timestamps,
  and `st.error` / `st.warning` calls are an appended message list);
* `src/utils/data_processing.py` — the SQL text built by
  `get_customer_segments` (embedded as the exact concatenation of the literal
  f-string segments, with the `project_id` / `dataset_id` interpolations as
  function arguments), `calculate_business_metrics`, `get_top_n_analysis`,
  `format_currency` and `format_percentage` (Python floats are modelled as
  rationals; `"%.Nf"` formatting rounds half-to-even as Python's `format` does);
* `src/utils/performance.py` — `optimize_dataframe_memory` (numpy's integer
  `astype` is modelled as wrapping into the target range; the `float32` cast
  performed by `pd.to_numeric(..., downcast='float')` is modelled as IEEE 754
  round-to-nearest-even at 24-bit precision with the exponent clamped at the
  subnormal floor, together with pandas' absolute-tolerance (`5e-4`) acceptance
  test; values beyond the float32 finite range are outside the model).
-/

/-! ## Decimal rendering helpers (Python `format` semantics on rationals) -/

/-- Round half to even: the integer nearest to `q`, ties going to the even
integer.  This is the rounding Python's `format(x, '.Nf')` applies to the
decimal digit string. -/
def rhe (q : ℚ) : ℤ :=
  let f := ⌊q⌋
  let r := q - f
  if r < 1/2 then f else if 1/2 < r then f + 1 else if f % 2 = 0 then f else f + 1

/-- Left-pad a digit string with zeros to length `d`. -/
def zeroPad (s : String) (d : ℕ) : String :=
  String.mk (List.replicate (d - s.length) '0') ++ s

/-- Insert a comma after every three characters, counting over a reversed
digit list (helper for Python's `{:,}` thousands grouping). -/
def gaux : List Char → ℕ → List Char
  | [], _ => []
  | c :: cs, 0 => ',' :: c :: gaux cs 2
  | c :: cs, Nat.succ k => c :: gaux cs k

/-- Render a natural number with thousands separators, as Python `f"{n:,}"`. -/
def natGrouped (n : ℕ) : String :=
  String.mk ((gaux (Nat.repr n).toList.reverse 3).reverse)

/-- Python `f"{q:.df}"`: fixed-point rendering with `d` decimal places,
rounding half to even. -/
def toFixed (q : ℚ) (d : ℕ) : String :=
  let m := (rhe (|q| * 10 ^ d)).toNat
  let ip := m / 10 ^ d
  let fp := m % 10 ^ d
  (if q < 0 then "-" else "") ++ Nat.repr ip ++
    (if d = 0 then "" else "." ++ zeroPad (Nat.repr fp) d)

/-- Python `f"{q:,.df}"`: like `toFixed` but with thousands separators in the
integer part. -/
def groupedFixed (q : ℚ) (d : ℕ) : String :=
  let m := (rhe (|q| * 10 ^ d)).toNat
  let ip := m / 10 ^ d
  let fp := m % 10 ^ d
  (if q < 0 then "-" else "") ++ natGrouped ip ++
    (if d = 0 then "" else "." ++ zeroPad (Nat.repr fp) d)

/-! ## `src/utils/data_processing.py` — formatting helpers -/

/-- `format_currency` from `src/utils/data_processing.py` (lines 304–311):
`"$%.1fM"` of `amount/1_000_000` when `amount >= 1_000_000`, `"$%.1fK"` of
`amount/1_000` when `amount >= 1_000`, else `"$%.2f"`. -/
def format_currency (amount : ℚ) : String :=
  if (1000000 : ℚ) ≤ amount then "$" ++ toFixed (amount / 1000000) 1 ++ "M"
  else if (1000 : ℚ) ≤ amount then "$" ++ toFixed (amount / 1000) 1 ++ "K"
  else "$" ++ toFixed amount 2

/-- `format_percentage` from `src/utils/data_processing.py` (lines 313–315):
`f"{value:.{decimals}f}%"`. -/
def format_percentage (value : ℚ) (decimals : ℕ) : String :=
  toFixed value decimals ++ "%"

/-! ## `src/utils/database.py` — config, client, cached query executor

The JSON config file is modelled as either missing, malformed, or a parsed
association list of keys to values (string values for the identifiers, a list
of table entries for `recommended_tables`).  Streamlit side effects are made
explicit: `st.error`/`st.warning` append to a message list, the BigQuery
client is a flag (`clientOk`) plus an oracle mapping each SQL string to either
an error (a raised exception) or a list of result rows, and
`@st.cache_data(ttl=3600)` is an explicit cache carrying the stored value and
its storage time. -/

/-- One element of the `recommended_tables` JSON list; the code only reads its
`table_name` field. -/
structure TableEntry where
  table_name : String
  deriving DecidableEq

/-- A JSON value occurring in `config/bigquery_config.json`: the identifier
fields are strings, `recommended_tables` is a list of table entries. -/
inductive JVal where
  | jstr (s : String)
  | jtables (ts : List TableEntry)
  deriving DecidableEq

/-- A parsed JSON config object (Python dict), as an association list. -/
abbrev Config := List (String × JVal)

/-- The state of the config file on disk. -/
inductive ConfigFile where
  | missing
  | malformed
  | parsed (c : Config)

/-- A user-visible Streamlit message: `st.error` or `st.warning`. -/
inductive UIMsg where
  | uiError (s : String)
  | uiWarning (s : String)
  deriving DecidableEq

/-- Python `key in config` / `config[key]` on the parsed dict. -/
def lookupKey (c : Config) (k : String) : Option JVal :=
  (c.find? (fun kv => kv.1 == k)).map (fun kv => kv.2)

/-- `load_config` (`src/utils/database.py` lines 19–42): a missing file,
invalid JSON, or a missing required field (`project_id` checked first, then
`dataset_id`) reports `st.error` and yields the empty config `{}`; otherwise
the parsed config is returned unchanged. -/
def load_config : ConfigFile → Config × List UIMsg
  | .missing =>
    ([], [.uiError "❌ Configuration file not found. Please check config/bigquery_config.json"])
  | .malformed => ([], [.uiError "❌ Invalid JSON in configuration file"])
  | .parsed c =>
    if lookupKey c "project_id" = none then
      ([], [.uiError "❌ Error loading configuration: Missing required config field: project_id"])
    else if lookupKey c "dataset_id" = none then
      ([], [.uiError "❌ Error loading configuration: Missing required config field: dataset_id"])
    else (c, [])

/-- `get_available_tables` (`src/utils/database.py` lines 133–136):
`[t['table_name'] for t in config.get('recommended_tables', [])]`. -/
def get_available_tables (f : ConfigFile) : List String :=
  match lookupKey (load_config f).1 "recommended_tables" with
  | some (.jtables ts) => ts.map (fun t => t.table_name)
  | _ => []

/-- `config[k]` for the string-valued identifier fields. -/
def getStr (c : Config) (k : String) : String :=
  match lookupKey c k with
  | some (.jstr s) => s
  | _ => ""

/-- Query results: a list of rows (row contents are opaque strings). -/
abbrev DataFrame := List (List String)

/-- The warehouse: each query string either raises (`.error`) or returns rows. -/
abbrev Oracle := String → Except String DataFrame

/-- The explicit effect state threaded through the database layer: queries
issued to the warehouse, Streamlit messages shown, and the two
`@st.cache_data(ttl=3600)` caches (for `execute_query`, keyed by
`(query, query_name)`, and for `load_table_data`, keyed by
`(table_name, limit)`), each entry carrying its storage time. -/
structure ExecState where
  issued : List String
  messages : List UIMsg
  qcache : List ((String × String) × DataFrame × ℕ)
  tcache : List ((String × Option ℤ) × DataFrame × ℕ)

/-- First cache entry stored under a key, with its storage time. -/
def cacheFind {κ : Type} [BEq κ] (c : List (κ × DataFrame × ℕ)) (k : κ) :
    Option (DataFrame × ℕ) :=
  (c.find? (fun e => e.1 == k)).map (fun e => e.2)

/-- The body of `execute_query` (`src/utils/database.py` lines 65–86), run on
a cache miss: if the client is unavailable return an empty dataframe; else
issue the query once; a raised exception is caught, reported with `st.error`,
and replaced by the empty dataframe; an empty result is reported with
`st.warning`. -/
def execute_query_body (oracle : Oracle) (clientOk : Bool) (q name : String)
    (st : ExecState) : DataFrame × ExecState :=
  if clientOk = false then ([], st)
  else
    let st1 := { st with issued := st.issued ++ [q] }
    match oracle q with
    | .error e =>
      ([], { st1 with messages := st1.messages ++
        [.uiError ("❌ Error executing query \x27" ++ name ++ "\x27: " ++ e)] })
    | .ok df =>
      if df.isEmpty then
        ([], { st1 with messages := st1.messages ++
          [.uiWarning ("⚠️ Query \x27" ++ name ++ "\x27 returned no data")] })
      else (df, st1)

/-- `execute_query` with its `@st.cache_data(ttl=3600)` wrapper: a cached
value younger than 3600 seconds is returned without touching the warehouse;
otherwise the body runs and its result (whatever it is, including the empty
dataframe produced by error handling) is stored at the current time. -/
def execute_query (oracle : Oracle) (clientOk : Bool) (q name : String)
    (now : ℕ) (st : ExecState) : DataFrame × ExecState :=
  match cacheFind st.qcache (q, name) with
  | some (df, t) =>
    if now < t + 3600 then (df, st)
    else
      let r := execute_query_body oracle clientOk q name st
      (r.1, { r.2 with qcache := ((q, name), r.1, now) :: r.2.qcache })
  | none =>
    let r := execute_query_body oracle clientOk q name st
    (r.1, { r.2 with qcache := ((q, name), r.1, now) :: r.2.qcache })

/-- `limit_clause = f"LIMIT {limit}" if limit else ""`: Python truthiness
makes both `None` and `0` produce the empty clause. -/
def limitClause : Option ℤ → String
  | none => ""
  | some n => if n = 0 then "" else "LIMIT " ++ toString n

/-- Literal segment of the `load_table_data` query after the `SELECT`
keyword. -/
def ltqA : String := " *\n    FROM \x60"

/-- Segment between the table reference and the limit clause. -/
def ltqB : String := "\x60\n    "

/-- The `SELECT *` query string built by `load_table_data`
(`src/utils/database.py` lines 95–100), with the f-string interpolations as
arguments (`\x60` is the backtick, U+0060). -/
def load_table_query (project dataset table : String) (limit : Option ℤ) : String :=
  "\n    " ++ "SELECT" ++ ltqA ++ project ++ "." ++ dataset ++ "." ++ table ++
    ltqB ++ limitClause limit ++ "\n    "

/-- The body of `load_table_data` (`src/utils/database.py` lines 88–102), run
on a cache miss: an empty config yields the empty dataframe, otherwise the
generated query is passed to `execute_query`. -/
def load_table_data_body (oracle : Oracle) (clientOk : Bool) (cfg : Config)
    (table : String) (limit : Option ℤ) (now : ℕ) (st : ExecState) :
    DataFrame × ExecState :=
  if cfg.isEmpty then ([], st)
  else
    execute_query oracle clientOk
      (load_table_query (getStr cfg "project_id") (getStr cfg "dataset_id") table limit)
      ("Load " ++ table) now st

/-- `load_table_data` with its own `@st.cache_data(ttl=3600)` wrapper. -/
def load_table_data (oracle : Oracle) (clientOk : Bool) (cfg : Config)
    (table : String) (limit : Option ℤ) (now : ℕ) (st : ExecState) :
    DataFrame × ExecState :=
  match cacheFind st.tcache (table, limit) with
  | some (df, t) =>
    if now < t + 3600 then (df, st)
    else
      let r := load_table_data_body oracle clientOk cfg table limit now st
      (r.1, { r.2 with tcache := ((table, limit), r.1, now) :: r.2.tcache })
  | none =>
    let r := load_table_data_body oracle clientOk cfg table limit now st
    (r.1, { r.2 with tcache := ((table, limit), r.1, now) :: r.2.tcache })

/-! ## The SQL text built by `src/utils/data_processing.py`

Each query below is the exact text of the Python f-string, with the
`{config['project_id']}` / `{config['dataset_id']}` interpolations as function
arguments.  An f-string is a concatenation of its literal segments and its
interpolated values; `customer_segments_query` splits some literal segments
further, at the boundaries of the clauses the specification talks about
(`\x27` is the apostrophe U+0027 and `\x60` the backtick U+0060). -/

/-- Recency score clause of the RFM query. -/
def ntileRecencyClause : String :=
  "NTILE(5) OVER (ORDER BY last_order_date DESC) as recency_score"

/-- Frequency score clause of the RFM query. -/
def ntileFrequencyClause : String :=
  "NTILE(5) OVER (ORDER BY total_orders ASC) as frequency_score"

/-- Monetary score clause of the RFM query. -/
def ntileMonetaryClause : String :=
  "NTILE(5) OVER (ORDER BY total_spent ASC) as monetary_score"

/-- The `CASE` expression assigning `customer_segment` from the three scores. -/
def segmentCaseClause : String :=
  "CASE \n                -- High value customers (top monetary + frequency)\n                WHEN monetary_score >= 4 AND frequency_score >= 4 THEN \x27Champions\x27\n                -- Good recent customers\n                WHEN recency_score >= 4 AND monetary_score >= 3 THEN \x27Loyal Customers\x27\n                -- High spenders but less frequent\n                WHEN monetary_score >= 4 AND frequency_score <= 2 THEN \x27Big Spenders\x27\n                -- Recent but low value\n                WHEN recency_score >= 4 AND monetary_score <= 2 THEN \x27New Customers\x27\n                -- Multiple orders, medium value\n                WHEN frequency_score >= 3 AND monetary_score >= 3 THEN \x27Potential Loyalists\x27\n                -- Low recent activity\n                WHEN recency_score <= 2 AND frequency_score >= 2 THEN \x27At Risk\x27\n                -- Single purchase customers\n                WHEN total_orders = 1 THEN \x27One-Time Buyers\x27\n                -- Default category\n                ELSE \x27Regular Customers\x27\n            END as customer_segment"

/-- The columns of the query's final `SELECT` list, in order. -/
def csqResultColumns : List String :=
  ["customer_unique_id", "customer_state", "customer_city", "total_orders",
   "total_spent", "avg_review_score", "first_order_date", "last_order_date",
   "customer_segment", "recency_score", "frequency_score", "monetary_score"]

/-- The final `SELECT ... FROM customer_segments ORDER BY total_spent DESC`
part of the RFM query. -/
def csqFinalSelect : String :=
  "SELECT \n        " ++ String.intercalate ",\n        " csqResultColumns ++
    "\n    FROM customer_segments\n    " ++ "ORDER BY total_spent DESC\n    "

/-- Tail of the first literal segment of the RFM query (after the `WITH`
keyword, up to `fact_order_items`). -/
def csqA1 : String :=
  " customer_metrics AS (\n        SELECT \n            c.customer_unique_id,\n            c.customer_state,\n            c.customer_city,\n            COUNT(DISTINCT oi.order_id) as total_orders,\n            SUM(oi.price) as total_spent,\n            AVG(oi.review_score) as avg_review_score,\n            MIN(o.order_purchase_timestamp) as first_order_date,\n            MAX(o.order_purchase_timestamp) as last_order_date,\n            DATE_DIFF(DATE(MAX(o.order_purchase_timestamp)), DATE(MIN(o.order_purchase_timestamp)), DAY) as customer_lifespan_days\n        FROM \x60"

/-- First literal segment of the RFM query. -/
def csqA : String := "\n    " ++ "WITH" ++ csqA1

/-- Literal segment between `fact_order_items` and `dim_customer`. -/
def csqB : String :=
  ".fact_order_items\x60 oi\n        JOIN \x60"

/-- Literal segment between `dim_customer` and `dim_orders`. -/
def csqC : String :=
  ".dim_customer\x60 c \n            ON oi.customer_sk = c.customer_sk\n        JOIN \x60"

/-- Literal segment from `dim_orders` up to the recency clause. -/
def csqD : String :=
  ".dim_orders\x60 o \n            ON oi.order_sk = o.order_sk\n        WHERE o.order_status = \x27delivered\x27\n        GROUP BY 1, 2, 3\n    ),\n    rfm_analysis AS (\n        SELECT *,\n            -- Recency (based on relative timing within dataset)\n            "

/-- Literal segment between the recency and frequency clauses. -/
def csqE : String :=
  ",\n            -- Frequency (based on order count)\n            "

/-- Literal segment between the frequency and monetary clauses. -/
def csqF : String :=
  ",\n            -- Monetary (based on total spent)\n            "

/-- Literal segment between the monetary clause and the `CASE` expression. -/
def csqG : String :=
  "\n        FROM customer_metrics\n    ),\n    customer_segments AS (\n        SELECT *,\n            "

/-- Literal segment between the `CASE` expression and the final `SELECT`. -/
def csqH : String :=
  "\n        FROM rfm_analysis\n    )\n    "

/-- The full SQL string built by `get_customer_segments`
(`src/utils/data_processing.py` lines 21–88). -/
def customer_segments_query (p d : String) : String :=
  csqA ++ p ++ "." ++ d ++ csqB ++ p ++ "." ++ d ++ csqC ++ p ++ "." ++ d ++ csqD ++
    ntileRecencyClause ++ csqE ++ ntileFrequencyClause ++ csqF ++ ntileMonetaryClause ++
    csqG ++ segmentCaseClause ++ csqH ++ csqFinalSelect

/-- `get_customer_segments` (`src/utils/data_processing.py` lines 14–90): an
empty config yields the empty dataframe; otherwise the RFM query string is
passed to `execute_query` under the name `"Customer Segmentation"`.  (Its own
`@st.cache_data(ttl=1800)` layer is not modelled; the claims about this
function concern the query text it builds.) -/
def get_customer_segments (oracle : Oracle) (clientOk : Bool) (cfg : Config)
    (now : ℕ) (st : ExecState) : DataFrame × ExecState :=
  if cfg.isEmpty then ([], st)
  else
    execute_query oracle clientOk
      (customer_segments_query (getStr cfg "project_id") (getStr cfg "dataset_id"))
      "Customer Segmentation" now st

/-- First literal segment (after the `WITH` keyword) of the SQL string built
by `get_order_performance` (`src/utils/data_processing.py` lines 99–146). -/
def opqA : String :=
  " order_metrics AS (\n        SELECT \n            o.order_id,\n            o.order_status,\n            o.order_purchase_timestamp,\n            o.order_delivered_customer_date,\n            o.order_estimated_delivery_date,\n            CASE \n                WHEN o.order_delivered_customer_date IS NOT NULL \n                AND o.order_delivered_customer_date != \x27\x27\n                AND o.order_purchase_timestamp IS NOT NULL\n                THEN DATE_DIFF(\n                    DATE(CAST(o.order_delivered_customer_date AS TIMESTAMP)), \n                    DATE(o.order_purchase_timestamp), \n                    DAY\n                )\n                ELSE NULL\n            END as actual_delivery_days,\n            CASE \n                WHEN o.order_estimated_delivery_date IS NOT NULL\n                AND o.order_purchase_timestamp IS NOT NULL\n                THEN DATE_DIFF(\n                    DATE(o.order_estimated_delivery_date), \n                    DATE(o.order_purchase_timestamp), \n                    DAY\n                )\n                ELSE NULL\n            END as estimated_delivery_days,\n            SUM(oi.price) as order_value,\n            COUNT(oi.product_sk) as items_count,\n            AVG(oi.review_score) as order_review_score\n        FROM \x60"

/-- Middle literal segment of the order-performance query. -/
def opqB : String :=
  ".dim_orders\x60 o\n        JOIN \x60"

/-- Final literal segment of the order-performance query. -/
def opqC : String :=
  ".fact_order_items\x60 oi \n            ON o.order_sk = oi.order_sk\n        WHERE o.order_status IN (\x27delivered\x27, \x27shipped\x27, \x27processing\x27)\n        GROUP BY 1, 2, 3, 4, 5\n    )\n    SELECT *,\n        CASE \n            WHEN actual_delivery_days IS NOT NULL AND estimated_delivery_days IS NOT NULL\n            THEN (actual_delivery_days - estimated_delivery_days)\n            ELSE NULL\n        END as delivery_difference\n    FROM order_metrics\n    WHERE order_purchase_timestamp IS NOT NULL\n    ORDER BY order_purchase_timestamp DESC\n    "

/-- The SQL string built by `get_order_performance`
(`src/utils/data_processing.py` lines 99–146). -/
def order_performance_query (p d : String) : String :=
  "\n    " ++ "WITH" ++ opqA ++ p ++ "." ++ d ++ opqB ++ p ++ "." ++ d ++ opqC

/-- First literal segment (after the `WITH` keyword) of the SQL string built
by `get_review_insights` (`src/utils/data_processing.py` lines 157–192). -/
def riqA : String :=
  " review_analysis AS (\n        SELECT \n            r.review_id,\n            oi.review_score,\n            r.review_creation_date,\n            r.review_answer_timestamp,\n            o.order_purchase_timestamp,\n            c.customer_state,\n            p.product_category_name,\n            oi.price,\n            CASE \n                WHEN r.review_creation_date IS NOT NULL \n                AND o.order_delivered_customer_date IS NOT NULL\n                AND o.order_delivered_customer_date != \x27\x27\n                THEN DATE_DIFF(\n                    DATE(r.review_creation_date), \n                    DATE(CAST(o.order_delivered_customer_date AS TIMESTAMP)), \n                    DAY\n                )\n                ELSE NULL\n            END as days_to_review\n        FROM \x60"

/-- Literal segments between the interpolations of the review-insights
query. -/
def riqB : String := ".dim_order_reviews\x60 r\n        JOIN \x60"

/-- Segment between `fact_order_items` and `dim_orders`. -/
def riqC : String :=
  ".fact_order_items\x60 oi \n            ON r.review_sk = oi.review_sk\n        JOIN \x60"

/-- Segment between `dim_orders` and `dim_customer`. -/
def riqD : String :=
  ".dim_orders\x60 o \n            ON oi.order_sk = o.order_sk\n        JOIN \x60"

/-- Segment between `dim_customer` and `dim_product`. -/
def riqE : String :=
  ".dim_customer\x60 c \n            ON oi.customer_sk = c.customer_sk\n        JOIN \x60"

/-- Final literal segment of the review-insights query. -/
def riqF : String :=
  ".dim_product\x60 p \n            ON oi.product_sk = p.product_sk\n        WHERE oi.review_score IS NOT NULL\n    )\n    SELECT * FROM review_analysis\n    ORDER BY review_creation_date DESC\n    "

/-- The SQL string built by `get_review_insights`
(`src/utils/data_processing.py` lines 157–192). -/
def review_insights_query (p d : String) : String :=
  "\n    " ++ "WITH" ++ riqA ++ p ++ "." ++ d ++ riqB ++ p ++ "." ++ d ++ riqC ++
    p ++ "." ++ d ++ riqD ++ p ++ "." ++ d ++ riqE ++ p ++ "." ++ d ++ riqF

/-- First literal segment (after the `WITH` keyword) of the SQL string built
by `get_geographic_summary` (`src/utils/data_processing.py` lines 203–224). -/
def gsqA : String :=
  " geo_summary AS (\n        SELECT \n            c.customer_state,\n            c.customer_city,\n            g.geolocation_lat,\n            g.geolocation_lng,\n            COUNT(DISTINCT c.customer_unique_id) as customer_count,\n            COUNT(DISTINCT oi.order_id) as order_count,\n            SUM(oi.price) as total_revenue,\n            AVG(oi.review_score) as avg_review_score\n        FROM \x60"

/-- Segment between `dim_customer` and `fact_order_items`. -/
def gsqB : String := ".dim_customer\x60 c\n        JOIN \x60"

/-- Segment between `fact_order_items` and `dim_geolocation`. -/
def gsqC : String :=
  ".fact_order_items\x60 oi \n            ON c.customer_sk = oi.customer_sk\n        LEFT JOIN \x60"

/-- Final literal segment of the geographic-summary query. -/
def gsqD : String :=
  ".dim_geolocation\x60 g \n            ON c.customer_zip_code_prefix = g.geolocation_zip_code_prefix\n        GROUP BY 1, 2, 3, 4\n        HAVING customer_count > 0\n    )\n    SELECT * FROM geo_summary\n    ORDER BY total_revenue DESC\n    "

/-- The SQL string built by `get_geographic_summary`
(`src/utils/data_processing.py` lines 203–224). -/
def geographic_summary_query (p d : String) : String :=
  "\n    " ++ "WITH" ++ gsqA ++ p ++ "." ++ d ++ gsqB ++ p ++ "." ++ d ++ gsqC ++
    p ++ "." ++ d ++ gsqD

/-- The connection test query issued by `get_bigquery_client`
(`src/utils/database.py` line 56). -/
def clientTestQuery : String := "SELECT" ++ " 1 as test"

/-! ## `calculate_business_metrics` and the client-side aggregation in `Main.py`

`calculate_business_metrics` (`src/utils/data_processing.py` lines 228–253)
receives a Polars dataframe of warehouse rows; it is modelled column-major
(column name to list of rational cells).  Python dicts preserve insertion
order, so the metrics dict is an ordered list of key/value pairs. -/

/-- A Polars dataframe with numeric cells, column-major. -/
abbrev BDF := List (String × List ℚ)

/-- `df.columns`. -/
def bdfNames (df : BDF) : List String := df.map (fun c => c.1)

/-- Column access `df[k]` (first column named `k`). -/
def getCol (df : BDF) (k : String) : List ℚ :=
  ((df.find? (fun c => c.1 == k)).map (fun c => c.2)).getD []

/-- `df.is_empty()`: no columns or zero rows. -/
def bdfIsEmpty (df : BDF) : Bool := df.isEmpty || df.any (fun c => c.2.isEmpty)

/-- Polars `n_unique`. -/
def nuniq (l : List ℚ) : ℕ := l.dedup.length

/-- Polars `mean`. -/
def meanQ (l : List ℚ) : ℚ := l.sum / l.length

/-- `calculate_business_metrics` (`src/utils/data_processing.py` lines
228–253): on a non-empty dataframe it computes, client-side, the sum and mean
of the revenue column (`total_spent` preferred over `price`) formatted
`f"${v:,.2f}"`, unique counts of `customer_unique_id` / `order_id` formatted
`f"{n:,}"`, and the mean `review_score` formatted `f"{v:.2f}/5"`. -/
def calculate_business_metrics (df : BDF) : List (String × String) :=
  if bdfIsEmpty df then []
  else
    (if ("price" ∈ bdfNames df) ∨ ("total_spent" ∈ bdfNames df) then
      let rc := if "total_spent" ∈ bdfNames df then "total_spent" else "price"
      [("Total Revenue", "$" ++ groupedFixed (getCol df rc).sum 2),
       ("Average Order Value", "$" ++ groupedFixed (meanQ (getCol df rc)) 2)]
     else []) ++
    (if "customer_unique_id" ∈ bdfNames df then
      [("Total Customers", natGrouped (nuniq (getCol df "customer_unique_id")))]
     else []) ++
    (if "order_id" ∈ bdfNames df then
      [("Total Orders", natGrouped (nuniq (getCol df "order_id")))]
     else []) ++
    (if "review_score" ∈ bdfNames df then
      [("Average Rating", toFixed (meanQ (getCol df "review_score")) 2 ++ "/5")]
     else [])

/-- The client-side `customer_data.groupby('customer_segment')['total_spent']
.sum().sort_values(ascending=False)` computed by `create_customer_intelligence`
in `src/Main.py` (line 320), on rows projected to (segment, total_spent). -/
def main_segment_revenue (rows : List (String × ℚ)) : List (String × ℚ) :=
  let keys := (rows.map (fun r => r.1)).dedup
  let grouped := keys.map (fun k =>
    (k, ((rows.filter (fun r => r.1 == k)).map (fun r => r.2)).sum))
  List.insertionSort (fun a b => b.2 ≤ a.2) grouped

/-- The formatted renderings the dashboard applies to a single returned cell
(currency with two decimals, comma-grouped plain number, fixed-point, rating).
"Client code applies only formatting" says every displayed string is one of
these applied to some cell of the query result. -/
def cellFormats (c : ℚ) : List String :=
  ["$" ++ groupedFixed c 2, groupedFixed c 2, groupedFixed c 0, toFixed c 2,
   toFixed c 2 ++ "/5"]

/-- Formalisation of the claim that client code applies only formatting to
the returned rows: every value displayed by `calculate_business_metrics` is a
formatting of some cell of the input dataframe. -/
def OnlyFormatsCells (df : BDF) : Prop :=
  ∀ kv ∈ calculate_business_metrics df,
    ∃ c, (∃ col ∈ df, c ∈ col.2) ∧ kv.2 ∈ cellFormats c

/-! ## `get_top_n_analysis` (`src/utils/data_processing.py` lines 281–302)

A generic Polars dataframe is modelled row-major with rational cells and a
column-name header; `group_by(...).agg(...)` groups rows by the key column
(first-occurrence order), `sort(value_col, descending=True)` is a sort by the
aggregated value in descending order, and `head(n)` takes the first `n`. -/

/-- A Polars dataframe, row-major: a header of column names and rows of
rational cells (cell `i` of a row belongs to column `i`). -/
structure DFrame where
  cols : List String
  rows : List (List ℚ)
  deriving DecidableEq

/-- Index of a column name in the header. -/
def colIdx (df : DFrame) (c : String) : ℕ := (df.cols.indexOf? c).getD 0

/-- The aggregation dispatch table `agg_funcs` of `get_top_n_analysis`
applied to the values of one group (groups are non-empty by construction). -/
def aggApply : String → List ℚ → ℚ
  | "mean", l => l.sum / l.length
  | "count", l => l.length
  | "max", l => match l with | [] => 0 | x :: xs => xs.foldl max x
  | "min", l => match l with | [] => 0 | x :: xs => xs.foldl min x
  | _, l => l.sum

/-- `get_top_n_analysis` (`src/utils/data_processing.py` lines 281–302): an
empty dataframe or a missing `group_by`/`value_col` column yields the empty
dataframe; an `agg_func` outside the table falls back to `'sum'`; otherwise
rows are grouped by the key column, aggregated, sorted by aggregated value
descending, and the first `n` rows are returned. -/
def get_top_n_analysis (df : DFrame) (group_by value_col : String) (n : ℕ)
    (agg_func : String) : DFrame :=
  if df.rows.isEmpty ∨ group_by ∉ df.cols ∨ value_col ∉ df.cols then ⟨[], []⟩
  else
    let f := if agg_func ∈ (["sum", "mean", "count", "max", "min"] : List String)
             then agg_func else "sum"
    let gi := colIdx df group_by
    let vi := colIdx df value_col
    let keys := (df.rows.map (fun r => r.getD gi 0)).dedup
    let grouped := keys.map (fun k =>
      (k, aggApply f ((df.rows.filter (fun r => r.getD gi 0 == k)).map
        (fun r => r.getD vi 0))))
    let sorted := List.insertionSort (fun a b => b.2 ≤ a.2) grouped
    ⟨[group_by, value_col], (sorted.take n).map (fun kv => [kv.1, kv.2])⟩

/-! ## `optimize_dataframe_memory` (`src/utils/performance.py` lines 109–142)

A pandas dataframe is modelled column-major; each column carries its dtype
and its cells.  numpy integer `astype` wraps into the target range; the
float path models `pd.to_numeric(col, downcast='float')`, which casts to
`float32` and keeps the cast exactly when every cell is within absolute
tolerance `5e-4` of the original (pandas `maybe_downcast_numeric`); the
object path casts to `category` (values unchanged) when under half the
values are distinct. -/

/-- A pandas cell: int64 entries, float64 entries, or object (string)
entries. -/
inductive PCell where
  | ival (z : ℤ)
  | fval (q : ℚ)
  | sval (s : String)
  deriving DecidableEq

/-- The pandas dtypes `optimize_dataframe_memory` can produce or inspect. -/
inductive PDtype where
  | int64 | int32 | int16 | int8
  | uint8 | uint16 | uint32
  | float64 | float32
  | obj | category
  deriving DecidableEq

/-- A pandas column: a dtype and the cell values. -/
structure PColumn where
  dtype : PDtype
  values : List PCell
  deriving DecidableEq

/-- A pandas dataframe, column-major with named columns. -/
abbrev PDataFrame := List (String × PColumn)

/-- numpy `astype` to an unsigned `w`-bit integer (wraps modulo `2^w`). -/
def wrapU (w : ℕ) (z : ℤ) : ℤ := z % (2 ^ w : ℤ)

/-- numpy `astype` to a signed `w`-bit integer (two's-complement wrap). -/
def wrapS (w : ℕ) (z : ℤ) : ℤ := (z + 2 ^ (w - 1)) % (2 ^ w : ℤ) - 2 ^ (w - 1)

/-- Apply an integer cast to the integer cells of a column. -/
def mapIval (g : ℤ → ℤ) : List PCell → List PCell :=
  List.map (fun v => match v with | .ival z => .ival (g z) | o => o)

/-- The integer cells of a column. -/
def intsOf (vs : List PCell) : List ℤ :=
  vs.filterMap (fun v => match v with | .ival z => some z | _ => none)

/-- The float cells of a column. -/
def floatsOf (vs : List PCell) : List ℚ :=
  vs.filterMap (fun v => match v with | .fval q => some q | _ => none)

/-- The object (string) cells of a column. -/
def strsOf (vs : List PCell) : List String :=
  vs.filterMap (fun v => match v with | .sval s => some s | _ => none)

/-- Minimum of an integer column (`Series.min()`), 0 on an empty column. -/
def zmin : List ℤ → ℤ
  | [] => 0
  | x :: xs => xs.foldl min x

/-- Maximum of an integer column (`Series.max()`), 0 on an empty column. -/
def zmax : List ℤ → ℤ
  | [] => 0
  | x :: xs => xs.foldl max x

/-- The `int64` branch of `optimize_dataframe_memory` (lines 116–130): the
unsigned chain `uint8`/`uint16`/`uint32` when the minimum is non-negative,
else the signed chain `int8`/`int16`/`int32`, each guarded by the column's
minimum and maximum; an unmatched column stays `int64`. -/
def intNarrow (vs : List PCell) : PColumn :=
  let mn := zmin (intsOf vs)
  let mx := zmax (intsOf vs)
  if 0 ≤ mn then
    if mx < 255 then ⟨.uint8, mapIval (wrapU 8) vs⟩
    else if mx < 65535 then ⟨.uint16, mapIval (wrapU 16) vs⟩
    else if mx < 4294967295 then ⟨.uint32, mapIval (wrapU 32) vs⟩
    else ⟨.int64, vs⟩
  else
    if -128 < mn ∧ mx < 127 then ⟨.int8, mapIval (wrapS 8) vs⟩
    else if -32768 < mn ∧ mx < 32767 then ⟨.int16, mapIval (wrapS 16) vs⟩
    else if -2147483648 < mn ∧ mx < 2147483647 then ⟨.int32, mapIval (wrapS 32) vs⟩
    else ⟨.int64, vs⟩

/-- IEEE 754 `float32` rounding of a rational (numpy `astype('float32')`):
round to nearest at 24-bit precision with the exponent clamped at the
subnormal floor `2^-126`, ties to even.  Values at or beyond the float32
finite range (where the cast overflows to infinity) are outside the model. -/
def roundF32 (q : ℚ) : ℚ :=
  if q = 0 then 0
  else
    (if q < 0 then (-1 : ℚ) else 1) *
      (rhe (|q| / (2 : ℚ) ^ (max (Int.log 2 |q|) (-126) - 23)) : ℚ) *
      (2 : ℚ) ^ (max (Int.log 2 |q|) (-126) - 23)

/-- Apply the float32 cast to the float cells of a column. -/
def mapFval (g : ℚ → ℚ) : List PCell → List PCell :=
  List.map (fun v => match v with | .fval q => .fval (g q) | o => o)

/-- The `float64` branch (lines 133–134), i.e.
`pd.to_numeric(col, downcast='float')`: cast to `float32` and keep the cast
exactly when every cell is within absolute tolerance `5e-4` of its original
(pandas `maybe_downcast_numeric` runs `np.allclose(new, old, rtol=0,
atol=5e-4)`); otherwise the column is unchanged. -/
def floatNarrow (vs : List PCell) : PColumn :=
  if (floatsOf vs).all (fun q => |roundF32 q - q| ≤ 1 / 2000) then
    ⟨.float32, mapFval roundF32 vs⟩
  else ⟨.float64, vs⟩

/-- The object branch (lines 137–139): cast to `category` (values unchanged)
when `nunique / len < 0.5`. -/
def objNarrow (vs : List PCell) : PColumn :=
  if 2 * (strsOf vs).dedup.length < vs.length then ⟨.category, vs⟩
  else ⟨.obj, vs⟩

/-- Per-column action of `optimize_dataframe_memory`: only `int64`, `float64`
and `object` columns are touched (`select_dtypes`). -/
def optimizeColumn (c : PColumn) : PColumn :=
  match c.dtype with
  | .int64 => intNarrow c.values
  | .float64 => floatNarrow c.values
  | .obj => objNarrow c.values
  | _ => c

/-- `optimize_dataframe_memory` (`src/utils/performance.py` lines 109–142):
an empty dataframe is returned as is; otherwise each column is narrowed
independently (column names and order are untouched). -/
def optimize_dataframe_memory (df : PDataFrame) : PDataFrame :=
  if df.isEmpty || df.any (fun c => c.2.values.isEmpty) then df
  else df.map (fun c => (c.1, optimizeColumn c.2))

/-- Cells of a dataframe, with column names, dtypes erased: the "observable
contents" the claim says are preserved. -/
def pdfCells (df : PDataFrame) : List (String × List PCell) :=
  df.map (fun c => (c.1, c.2.values))

/-- A column's cells all match its declared dtype kind (for the dtypes the
function inspects; other dtypes are unconstrained). -/
def wtColumn (c : PColumn) : Bool :=
  match c.dtype with
  | .int64 => c.values.all (fun v => match v with | .ival _ => true | _ => false)
  | .float64 => c.values.all (fun v => match v with | .fval _ => true | _ => false)
  | .obj => c.values.all (fun v => match v with | .sval _ => true | _ => false)
  | _ => true

/-- Well-typedness of a pandas dataframe: every column's cells match its
dtype. -/
def WellTypedPDF (df : PDataFrame) : Prop :=
  df.all (fun c => wtColumn c.2) = true

/-- The signed/unsigned range of each concrete integer dtype. -/
def dtypeRange : PDtype → Option (ℤ × ℤ)
  | .uint8 => some (0, 255)
  | .uint16 => some (0, 65535)
  | .uint32 => some (0, 4294967295)
  | .int8 => some (-128, 127)
  | .int16 => some (-32768, 32767)
  | .int32 => some (-2147483648, 2147483647)
  | .int64 => some (-9223372036854775808, 9223372036854775807)
  | _ => none

/-! ## The SQL text built by the five page scripts under `src/pages/`

Each page script builds its own SQL strings (plain or f-strings with only the
`project_id`/`dataset_id` interpolations) and passes them to `execute_query`.
They are embedded below exactly as in the source, split after the leading
keyword so that read-only-ness is provable by associativity. -/

/-- Tail (after the leading keyword) of the SQL string `query` built at
`src/pages/1_👥_Customer_Analytics.py` lines 29–71. -/
def caq1tail (p d : String) : String :=
  " customer_base AS (\n        SELECT \n            c.customer_unique_id,\n            c.customer_state,\n            COUNT(DISTINCT oi.order_id) as total_orders,\n            ROUND(SUM(oi.price), 2) as total_spent,\n            ROUND(AVG(oi.price), 2) as avg_order_value,\n            ROUND(AVG(r.review_score), 1) as avg_review_score,\n            MIN(o.order_purchase_timestamp) as first_order_date,\n            MAX(o.order_purchase_timestamp) as last_order_date,\n            DATE_DIFF(DATE(MAX(o.order_purchase_timestamp)), DATE(MIN(o.order_purchase_timestamp)), DAY) as customer_lifespan_days\n        FROM \x60" ++
    p ++
    "." ++
    d ++
    ".fact_order_items\x60 oi\n        JOIN \x60" ++
    p ++
    "." ++
    d ++
    ".dim_customer\x60 c ON oi.customer_sk = c.customer_sk\n        JOIN \x60" ++
    p ++
    "." ++
    d ++
    ".dim_orders\x60 o ON oi.order_sk = o.order_sk\n        LEFT JOIN \x60" ++
    p ++
    "." ++
    d ++
    ".dim_reviews\x60 r ON oi.order_sk = r.order_sk\n        WHERE o.order_status = \x27delivered\x27\n        GROUP BY 1, 2\n    ),\n    segmented_customers AS (\n        SELECT *,\n            -- Customer segmentation logic in SQL\n            CASE \n                WHEN total_spent >= 1000 AND total_orders >= 5 THEN \x27VIP\x27\n                WHEN total_spent >= 500 AND total_orders >= 3 THEN \x27High Value\x27\n                WHEN total_spent >= 200 AND total_orders >= 2 THEN \x27Regular\x27\n                WHEN total_spent >= 50 THEN \x27Low Value\x27\n                ELSE \x27One-time\x27\n            END as customer_segment,\n            -- Monthly CLV calculation in SQL\n            CASE \n                WHEN customer_lifespan_days > 0 \n                THEN ROUND(total_spent / (customer_lifespan_days / 30.0), 2)\n                ELSE total_spent \n            END as monthly_clv\n        FROM customer_base\n    )\n    SELECT *,\n        -- State ranking for geographic insights\n        ROW_NUMBER() OVER (PARTITION BY customer_state ORDER BY total_spent DESC) as state_rank\n    FROM segmented_customers\n    ORDER BY total_spent DESC\n    "

/-- The SQL string `query` built at `src/pages/1_👥_Customer_Analytics.py`
lines 29–71. -/
def caq1 (p d : String) : String :=
  "\n    " ++ "WITH" ++ caq1tail p d

/-- Tail (after the leading keyword) of the SQL string `query` built at
`src/pages/1_👥_Customer_Analytics.py` lines 82–120. -/
def caq2tail (p d : String) : String :=
  " customer_metrics AS (\n        SELECT \n            COUNT(DISTINCT c.customer_unique_id) as total_customers,\n            COUNT(DISTINCT c.customer_state) as total_states,\n            ROUND(AVG(customer_data.total_spent), 2) as avg_customer_value,\n            ROUND(AVG(customer_data.avg_order_value), 2) as avg_order_value,\n            ROUND(AVG(customer_data.avg_review_score), 2) as avg_rating,\n            COUNT(CASE WHEN customer_data.total_orders > 1 THEN 1 END) as repeat_customers,\n            ROUND(SUM(customer_data.total_spent), 2) as total_revenue\n        FROM (\n            SELECT \n                c.customer_unique_id,\n                c.customer_state,\n                COUNT(DISTINCT oi.order_id) as total_orders,\n                SUM(oi.price) as total_spent,\n                AVG(oi.price) as avg_order_value,\n                AVG(r.review_score) as avg_review_score\n            FROM \x60" ++
    p ++
    "." ++
    d ++
    ".fact_order_items\x60 oi\n            JOIN \x60" ++
    p ++
    "." ++
    d ++
    ".dim_customer\x60 c ON oi.customer_sk = c.customer_sk\n            JOIN \x60" ++
    p ++
    "." ++
    d ++
    ".dim_orders\x60 o ON oi.order_sk = o.order_sk\n            LEFT JOIN \x60" ++
    p ++
    "." ++
    d ++
    ".dim_reviews\x60 r ON oi.order_sk = r.order_sk\n            WHERE o.order_status = \x27delivered\x27\n            GROUP BY 1, 2\n        ) customer_data\n        CROSS JOIN \x60" ++
    p ++
    "." ++
    d ++
    ".dim_customer\x60 c\n        WHERE c.customer_unique_id IS NOT NULL\n    )\n    SELECT \n        total_customers,\n        total_states,\n        avg_customer_value,\n        avg_order_value,\n        avg_rating,\n        repeat_customers,\n        total_revenue,\n        ROUND((repeat_customers * 100.0 / total_customers), 1) as repeat_rate\n    FROM customer_metrics\n    "

/-- The SQL string `query` built at `src/pages/1_👥_Customer_Analytics.py`
lines 82–120. -/
def caq2 (p d : String) : String :=
  "\n    " ++ "WITH" ++ caq2tail p d

/-- Tail (after the leading keyword) of the SQL string `query` built at
`src/pages/1_👥_Customer_Analytics.py` lines 134–167. -/
def caq3tail (p d : String) : String :=
  " customer_segments AS (\n        SELECT \n            c.customer_unique_id,\n            c.customer_state,\n            COUNT(DISTINCT oi.order_id) as total_orders,\n            SUM(oi.price) as total_spent,\n            AVG(oi.price) as avg_order_value,\n            AVG(r.review_score) as avg_review_score,\n            CASE \n                WHEN SUM(oi.price) >= 1000 AND COUNT(DISTINCT oi.order_id) >= 5 THEN \x27VIP\x27\n                WHEN SUM(oi.price) >= 500 AND COUNT(DISTINCT oi.order_id) >= 3 THEN \x27High Value\x27\n                WHEN SUM(oi.price) >= 200 AND COUNT(DISTINCT oi.order_id) >= 2 THEN \x27Regular\x27\n                WHEN SUM(oi.price) >= 50 THEN \x27Low Value\x27\n                ELSE \x27One-time\x27\n            END as customer_segment\n        FROM \x60" ++
    p ++
    "." ++
    d ++
    ".fact_order_items\x60 oi\n        JOIN \x60" ++
    p ++
    "." ++
    d ++
    ".dim_customer\x60 c ON oi.customer_sk = c.customer_sk\n        JOIN \x60" ++
    p ++
    "." ++
    d ++
    ".dim_orders\x60 o ON oi.order_sk = o.order_sk\n        LEFT JOIN \x60" ++
    p ++
    "." ++
    d ++
    ".dim_reviews\x60 r ON oi.order_sk = r.order_sk\n        WHERE o.order_status = \x27delivered\x27\n        GROUP BY 1, 2\n    )\n    SELECT \n        customer_segment,\n        COUNT(*) as customer_count,\n        ROUND(SUM(total_spent), 2) as segment_revenue,\n        ROUND(AVG(total_spent), 2) as avg_customer_value,\n        ROUND(AVG(avg_order_value), 2) as avg_order_value,\n        ROUND(AVG(total_orders), 1) as avg_orders_per_customer\n    FROM customer_segments\n    GROUP BY customer_segment\n    ORDER BY segment_revenue DESC\n    "

/-- The SQL string `query` built at `src/pages/1_👥_Customer_Analytics.py`
lines 134–167. -/
def caq3 (p d : String) : String :=
  "\n    " ++ "WITH" ++ caq3tail p d

/-- Tail (after the leading keyword) of the SQL string `query` built at
`src/pages/1_👥_Customer_Analytics.py` lines 178–199. -/
def caq4tail (p d : String) : String :=
  " state_metrics AS (\n        SELECT \n            c.customer_state,\n            COUNT(DISTINCT c.customer_unique_id) as customer_count,\n            COUNT(DISTINCT oi.order_id) as total_orders,\n            ROUND(SUM(oi.price), 2) as total_revenue,\n            ROUND(AVG(oi.price), 2) as avg_order_value,\n            ROUND(AVG(r.review_score), 2) as avg_rating\n        FROM \x60" ++
    p ++
    "." ++
    d ++
    ".fact_order_items\x60 oi\n        JOIN \x60" ++
    p ++
    "." ++
    d ++
    ".dim_customer\x60 c ON oi.customer_sk = c.customer_sk\n        JOIN \x60" ++
    p ++
    "." ++
    d ++
    ".dim_orders\x60 o ON oi.order_sk = o.order_sk\n        LEFT JOIN \x60" ++
    p ++
    "." ++
    d ++
    ".dim_reviews\x60 r ON oi.order_sk = r.order_sk\n        WHERE o.order_status = \x27delivered\x27\n        GROUP BY c.customer_state\n    )\n    SELECT *,\n        ROUND((total_revenue / customer_count), 2) as revenue_per_customer,\n        ROW_NUMBER() OVER (ORDER BY total_revenue DESC) as revenue_rank\n    FROM state_metrics\n    ORDER BY total_revenue DESC\n    "

/-- The SQL string `query` built at `src/pages/1_👥_Customer_Analytics.py`
lines 178–199. -/
def caq4 (p d : String) : String :=
  "\n    " ++ "WITH" ++ caq4tail p d

/-- Tail (after the leading keyword) of the SQL string `query` built at
`src/pages/1_👥_Customer_Analytics.py` lines 210–251. -/
def caq5tail (p d : String) : String :=
  " first_orders AS (\n        SELECT \n            c.customer_unique_id,\n            DATE(DATE_TRUNC(MIN(o.order_purchase_timestamp), MONTH)) as cohort_month\n        FROM \x60" ++
    p ++
    "." ++
    d ++
    ".fact_order_items\x60 oi\n        JOIN \x60" ++
    p ++
    "." ++
    d ++
    ".dim_customer\x60 c ON oi.customer_sk = c.customer_sk\n        JOIN \x60" ++
    p ++
    "." ++
    d ++
    ".dim_orders\x60 o ON oi.order_sk = o.order_sk\n        WHERE o.order_status = \x27delivered\x27\n        GROUP BY 1\n    ),\n    cohort_data AS (\n        SELECT \n            fo.cohort_month,\n            DATE(DATE_TRUNC(o.order_purchase_timestamp, MONTH)) as order_month,\n            COUNT(DISTINCT c.customer_unique_id) as customers,\n            DATE_DIFF(DATE(DATE_TRUNC(o.order_purchase_timestamp, MONTH)), fo.cohort_month, MONTH) as period_number\n        FROM first_orders fo\n        JOIN \x60" ++
    p ++
    "." ++
    d ++
    ".dim_customer\x60 c ON fo.customer_unique_id = c.customer_unique_id\n        JOIN \x60" ++
    p ++
    "." ++
    d ++
    ".fact_order_items\x60 oi ON c.customer_sk = oi.customer_sk\n        JOIN \x60" ++
    p ++
    "." ++
    d ++
    ".dim_orders\x60 o ON oi.order_sk = o.order_sk\n        WHERE o.order_status = \x27delivered\x27\n        GROUP BY 1, 2, 4\n    ),\n    cohort_summary AS (\n        SELECT \n            cohort_month,\n            period_number,\n            customers,\n            -- Calculate retention rates directly in BigQuery\n            ROUND(customers * 100.0 / FIRST_VALUE(customers) OVER (\n                PARTITION BY cohort_month \n                ORDER BY period_number \n                ROWS BETWEEN UNBOUNDED PRECEDING AND UNBOUNDED FOLLOWING\n            ), 2) as retention_rate\n        FROM cohort_data\n        WHERE period_number <= 12  -- Limit to 12 months for performance\n    )\n    SELECT *\n    FROM cohort_summary\n    ORDER BY cohort_month, period_number\n    "

/-- The SQL string `query` built at `src/pages/1_👥_Customer_Analytics.py`
lines 210–251. -/
def caq5 (p d : String) : String :=
  "\n    " ++ "WITH" ++ caq5tail p d

/-- Tail (after the leading keyword) of the SQL string `query` built at
`src/pages/1_👥_Customer_Analytics.py` lines 262–301. -/
def caq6tail (p d : String) : String :=
  " customer_clv AS (\n        SELECT \n            c.customer_unique_id,\n            c.customer_state,\n            COUNT(DISTINCT oi.order_id) as total_orders,\n            ROUND(SUM(oi.price), 2) as total_spent,\n            ROUND(AVG(oi.price), 2) as avg_order_value,\n            DATE_DIFF(DATE(MAX(o.order_purchase_timestamp)), DATE(MIN(o.order_purchase_timestamp)), DAY) as customer_lifespan_days,\n            -- CLV segmentation in BigQuery\n            CASE \n                WHEN SUM(oi.price) <= 100 THEN \x27$0-100\x27\n                WHEN SUM(oi.price) <= 500 THEN \x27$100-500\x27\n                WHEN SUM(oi.price) <= 1000 THEN \x27$500-1K\x27\n                WHEN SUM(oi.price) <= 2000 THEN \x27$1K-2K\x27\n                ELSE \x27$2K+\x27\n            END as clv_segment\n        FROM \x60" ++
    p ++
    "." ++
    d ++
    ".fact_order_items\x60 oi\n        JOIN \x60" ++
    p ++
    "." ++
    d ++
    ".dim_customer\x60 c ON oi.customer_sk = c.customer_sk\n        JOIN \x60" ++
    p ++
    "." ++
    d ++
    ".dim_orders\x60 o ON oi.order_sk = o.order_sk\n        WHERE o.order_status = \x27delivered\x27\n        GROUP BY 1, 2\n    )\n    SELECT \n        clv_segment,\n        COUNT(*) as customer_count,\n        ROUND(AVG(total_spent), 2) as avg_clv,\n        ROUND(AVG(total_orders), 1) as avg_orders,\n        ROUND(AVG(avg_order_value), 2) as avg_order_value\n    FROM customer_clv\n    GROUP BY clv_segment\n    ORDER BY \n        CASE clv_segment\n            WHEN \x27$0-100\x27 THEN 1\n            WHEN \x27$100-500\x27 THEN 2 \n            WHEN \x27$500-1K\x27 THEN 3\n            WHEN \x27$1K-2K\x27 THEN 4\n            WHEN \x27$2K+\x27 THEN 5\n        END\n    "

/-- The SQL string `query` built at `src/pages/1_👥_Customer_Analytics.py`
lines 262–301. -/
def caq6 (p d : String) : String :=
  "\n    " ++ "WITH" ++ caq6tail p d

/-- Tail (after the leading keyword) of the SQL string `order_query` built at
`src/pages/2_🛒_Order_Analytics.py` lines 32–56. -/
def oaq1tail : String :=
  " \n            order_id,\n            customer_id,\n            order_status,\n            order_date,\n            product_id,\n            product_category_english as product_category_name,\n            seller_id,\n            seller_state,\n            seller_city,\n            item_price as price,\n            freight_cost as freight_value,\n            payment_type,\n            payment_installments,\n            allocated_payment as payment_value,\n            review_score,\n            year_month,\n            satisfaction_level,\n            shipping_complexity\n        FROM \x60project-olist-470307.dbt_olist_analytics.revenue_analytics_obt\x60\n        WHERE order_status IN (\x27delivered\x27, \x27shipped\x27, \x27invoiced\x27, \x27processing\x27)\n        ORDER BY order_date DESC\n        LIMIT 50000\n        "

/-- The SQL string `order_query` built at `src/pages/2_🛒_Order_Analytics.py`
lines 32–56. -/
def oaq1 : String :=
  "\n        " ++ "SELECT" ++ oaq1tail

/-- Tail (after the leading keyword) of the SQL string `monthly_query` built at
`src/pages/2_🛒_Order_Analytics.py` lines 67–78. -/
def oaq2tail : String :=
  " \n            year_month,\n            COUNT(DISTINCT order_id) as order_count,\n            ROUND(SUM(allocated_payment), 2) as total_revenue,\n            ROUND(AVG(allocated_payment), 2) as avg_order_value,\n            COUNT(DISTINCT customer_id) as unique_customers\n        FROM \x60project-olist-470307.dbt_olist_analytics.revenue_analytics_obt\x60\n        WHERE order_status IN (\x27delivered\x27, \x27shipped\x27, \x27invoiced\x27, \x27processing\x27)\n        GROUP BY year_month\n        ORDER BY year_month\n        "

/-- The SQL string `monthly_query` built at `src/pages/2_🛒_Order_Analytics.py`
lines 67–78. -/
def oaq2 : String :=
  "\n        " ++ "SELECT" ++ oaq2tail

/-- Tail (after the leading keyword) of the SQL string `category_query` built at
`src/pages/2_🛒_Order_Analytics.py` lines 85–97. -/
def oaq3tail : String :=
  " \n            product_category_english as product_category_name,\n            COUNT(DISTINCT order_id) as order_count,\n            ROUND(SUM(allocated_payment), 2) as category_revenue,\n            ROUND(AVG(allocated_payment), 2) as avg_order_value,\n            ROUND(AVG(review_score), 2) as avg_review_score\n        FROM \x60project-olist-470307.dbt_olist_analytics.revenue_analytics_obt\x60\n        WHERE order_status = \x27delivered\x27 AND product_category_english IS NOT NULL\n        GROUP BY product_category_english\n        ORDER BY category_revenue DESC\n        LIMIT 15\n        "

/-- The SQL string `category_query` built at `src/pages/2_🛒_Order_Analytics.py`
lines 85–97. -/
def oaq3 : String :=
  "\n        " ++ "SELECT" ++ oaq3tail

/-- Tail (after the leading keyword) of the SQL string `delivery_query` built at
`src/pages/2_🛒_Order_Analytics.py` lines 104–114. -/
def oaq4tail : String :=
  " \n            satisfaction_level as delivery_performance,\n            COUNT(DISTINCT order_id) as order_count,\n            ROUND(AVG(review_score), 2) as avg_review_score,\n            ROUND(COUNT(DISTINCT order_id) * 100.0 / SUM(COUNT(DISTINCT order_id)) OVER(), 2) as percentage\n        FROM \x60project-olist-470307.dbt_olist_analytics.revenue_analytics_obt\x60\n        WHERE order_status = \x27delivered\x27 AND satisfaction_level IS NOT NULL\n        GROUP BY satisfaction_level\n        ORDER BY order_count DESC\n        "

/-- The SQL string `delivery_query` built at `src/pages/2_🛒_Order_Analytics.py`
lines 104–114. -/
def oaq4 : String :=
  "\n        " ++ "SELECT" ++ oaq4tail

/-- Tail (after the leading keyword) of the SQL string `query` built at
`src/pages/3_⭐_Review_Analytics.py` lines 31–59. -/
def raq1tail (p d : String) : String :=
  " review_analytics AS (\n        SELECT \n            r.review_id,\n            oi.order_id,\n            oi.review_score,\n            r.review_comment_title,\n            r.review_comment_message,\n            r.review_creation_date,\n            r.review_answer_timestamp,\n            o.order_status,\n            o.order_purchase_timestamp,\n            o.order_delivered_customer_date,\n            c.customer_state,\n            c.customer_city,\n            SUM(oi.price) as order_value,\n            COUNT(oi.order_item_id) as item_count\n        FROM \x60" ++
    p ++
    "." ++
    d ++
    ".fact_order_items\x60 oi\n        JOIN \x60" ++
    p ++
    "." ++
    d ++
    ".dim_order_reviews\x60 r\n            ON oi.review_sk = r.review_sk\n        JOIN \x60" ++
    p ++
    "." ++
    d ++
    ".dim_orders\x60 o \n            ON oi.order_sk = o.order_sk\n        JOIN \x60" ++
    p ++
    "." ++
    d ++
    ".dim_customer\x60 c \n            ON oi.customer_sk = c.customer_sk\n        WHERE oi.review_score IS NOT NULL\n        GROUP BY 1, 2, 3, 4, 5, 6, 7, 8, 9, 10, 11, 12\n    )\n    SELECT * FROM review_analytics\n    "

/-- The SQL string `query` built at `src/pages/3_⭐_Review_Analytics.py`
lines 31–59. -/
def raq1 (p d : String) : String :=
  "\n    " ++ "WITH" ++ raq1tail p d

/-- Tail (after the leading keyword) of the SQL string `query` built at
`src/pages/4_🗺️_Geographic_Analytics.py` lines 30–59. -/
def gaq1tail (p d : String) : String :=
  " geo_analytics AS (\n        SELECT \n            c.customer_state,\n            c.customer_city,\n            g.geolocation_lat,\n            g.geolocation_lng,\n            COUNT(DISTINCT c.customer_unique_id) as customer_count,\n            COUNT(DISTINCT oi.order_id) as order_count,\n            SUM(oi.price) as total_revenue,\n            AVG(oi.price) as avg_order_value,\n            AVG(oi.review_score) as avg_review_score,\n            COUNT(DISTINCT CASE WHEN o.order_status = \x27delivered\x27 THEN oi.order_id END) as delivered_orders\n        FROM \x60" ++
    p ++
    "." ++
    d ++
    ".fact_order_items\x60 oi\n        JOIN \x60" ++
    p ++
    "." ++
    d ++
    ".dim_customer\x60 c\n            ON oi.customer_sk = c.customer_sk\n        JOIN \x60" ++
    p ++
    "." ++
    d ++
    ".dim_geolocation\x60 g \n            ON c.customer_zip_code_prefix = g.geolocation_zip_code_prefix\n        JOIN \x60" ++
    p ++
    "." ++
    d ++
    ".dim_orders\x60 o \n            ON oi.order_sk = o.order_sk\n        WHERE g.geolocation_lat IS NOT NULL \n        AND g.geolocation_lng IS NOT NULL\n        AND g.geolocation_lat BETWEEN -35 AND 10  -- Brazil bounds\n        AND g.geolocation_lng BETWEEN -75 AND -30 -- Brazil bounds\n        GROUP BY 1, 2, 3, 4\n        HAVING customer_count > 0\n    )\n    SELECT * FROM geo_analytics\n    LIMIT 5000\n    "

/-- The SQL string `query` built at `src/pages/4_🗺️_Geographic_Analytics.py`
lines 30–59. -/
def gaq1 (p d : String) : String :=
  "\n    " ++ "WITH" ++ gaq1tail p d

/-- Tail (after the leading keyword) of the SQL string `query` built at
`src/pages/4_🗺️_Geographic_Analytics.py` lines 70–87. -/
def gaq2tail (p d : String) : String :=
  " \n        c.customer_state,\n        COUNT(DISTINCT c.customer_unique_id) as customer_count,\n        COUNT(DISTINCT oi.order_id) as order_count,\n        SUM(oi.price) as total_revenue,\n        AVG(oi.price) as avg_order_value,\n        AVG(oi.review_score) as avg_review_score,\n        COUNT(DISTINCT CASE WHEN o.order_status = \x27delivered\x27 THEN oi.order_id END) as delivered_orders\n    FROM \x60" ++
    p ++
    "." ++
    d ++
    ".fact_order_items\x60 oi\n    JOIN \x60" ++
    p ++
    "." ++
    d ++
    ".dim_customer\x60 c\n        ON oi.customer_sk = c.customer_sk\n    JOIN \x60" ++
    p ++
    "." ++
    d ++
    ".dim_orders\x60 o \n        ON oi.order_sk = o.order_sk\n    GROUP BY 1\n    HAVING customer_count > 0\n    ORDER BY total_revenue DESC\n    "

/-- The SQL string `query` built at `src/pages/4_🗺️_Geographic_Analytics.py`
lines 70–87. -/
def gaq2 (p d : String) : String :=
  "\n    " ++ "SELECT" ++ gaq2tail p d

/-- Tail (after the leading keyword) of the SQL string `segments_query` built at
`src/pages/5_📊_Customer_Segmentation.py` lines 82–96. -/
def csgq1tail : String :=
  " \n        customer_segment,\n        customer_id,\n        customer_state,\n        total_spent,\n        total_orders,\n        avg_order_value,\n        avg_review_score,\n        predicted_annual_clv,\n        first_order_date,\n        last_order_date\n    FROM \x60project-olist-470307.dbt_olist_analytics.customer_analytics_obt\x60\n    WHERE total_orders > 0 AND customer_segment IS NOT NULL\n    "

/-- The SQL string `segments_query` built at `src/pages/5_📊_Customer_Segmentation.py`
lines 82–96. -/
def csgq1 : String :=
  "\n    " ++ "SELECT" ++ csgq1tail

/-- Tail (after the leading keyword) of the SQL string `geo_query` built at
`src/pages/5_📊_Customer_Segmentation.py` lines 99–111. -/
def csgq2tail : String :=
  " \n        customer_state,\n        customer_city,\n        customer_id,\n        total_spent,\n        total_orders,\n        avg_order_value,\n        avg_review_score,\n        customer_segment\n    FROM \x60project-olist-470307.dbt_olist_analytics.customer_analytics_obt\x60\n    WHERE total_orders > 0\n    "

/-- The SQL string `geo_query` built at `src/pages/5_📊_Customer_Segmentation.py`
lines 99–111. -/
def csgq2 : String :=
  "\n    " ++ "SELECT" ++ csgq2tail

/-- Tail (after the leading keyword) of the SQL string `behavior_query` built at
`src/pages/5_📊_Customer_Segmentation.py` lines 114–131. -/
def csgq3tail : String :=
  " \n        customer_id,\n        customer_segment,\n        customer_state,\n        total_orders,\n        total_spent,\n        avg_order_value,\n        avg_review_score,\n        CASE \n            WHEN total_orders = 1 THEN \x27One-time Buyers\x27\n            WHEN total_orders BETWEEN 2 AND 3 THEN \x27Occasional Buyers\x27\n            WHEN total_orders BETWEEN 4 AND 6 THEN \x27Regular Buyers\x27\n            ELSE \x27Frequent Buyers\x27\n        END as purchase_behavior\n    FROM \x60project-olist-470307.dbt_olist_analytics.customer_analytics_obt\x60\n    WHERE total_orders > 0\n    "

/-- The SQL string `behavior_query` built at `src/pages/5_📊_Customer_Segmentation.py`
lines 114–131. -/
def csgq3 : String :=
  "\n    " ++ "SELECT" ++ csgq3tail

/-! ## String inspection helpers -/

/-- Substring occurrence as an explicit decomposition. -/
def ContainsStr (s pat : String) : Prop := ∃ pre post, s = pre ++ pat ++ post

/-- Whitespace characters for SQL tokenisation. -/
def isWsChar (c : Char) : Bool := c == ' ' || c == '\n' || c == '\t' || c == '\r'

/-- The query is a read-only `SELECT` statement: after leading whitespace the
first keyword is `SELECT` or `WITH`. -/
def ReadOnlyStart (s : String) : Prop :=
  ∃ ws rest, (s = ws ++ ("SELECT" ++ rest) ∨ s = ws ++ ("WITH" ++ rest)) ∧
    ws.toList.all isWsChar = true

/-- Is `pat` a prefix of the list? -/
def listPrefix : List Char → List Char → Bool
  | [], _ => true
  | _ :: _, [] => false
  | a :: as, b :: bs => a == b && listPrefix as bs

/-- Does `pat` occur anywhere in the list? -/
def containsSub (pat : List Char) : List Char → Bool
  | [] => pat.isEmpty
  | c :: rest => listPrefix pat (c :: rest) || containsSub pat rest

/-- The SQL keywords that modify warehouse state. -/
def writeKeywords : List String :=
  ["INSERT", "UPDATE", "DELETE", "DROP", "CREATE", "ALTER", "MERGE", "TRUNCATE"]

/-- Does the query contain any state-modifying SQL keyword? -/
def hasWriteKeyword (s : String) : Bool :=
  writeKeywords.any (fun k => containsSub k.toList s.toList)

/-! ## Claim theorems -/

/-- C8: `load_table_data` appends a `LIMIT n` clause to its generated
`SELECT *` query exactly when the `limit` argument is a truthy value `n`;
when `limit` is `None` or `0` the query contains no `LIMIT` clause, so
`limit=0` loads the whole table rather than zero rows. -/
theorem load_table_limit_clause (p d t : String) (lim : Option ℤ) :
    (∀ n : ℤ, lim = some n → n ≠ 0 →
      load_table_query p d t lim =
        "\n    " ++ "SELECT" ++ ltqA ++ p ++ "." ++ d ++ "." ++ t ++ ltqB ++
          ("LIMIT " ++ toString n) ++ "\n    ") ∧
    ((lim = none ∨ lim = some 0) →
      load_table_query p d t lim = load_table_query p d t none) ∧
    containsSub "LIMIT".toList
      (load_table_query "my-project" "my_dataset" "dim_orders" none).toList = false := by
  refine ⟨?_, ?_, by decide⟩
  · intro n hn hnz
    subst hn
    simp [load_table_query, limitClause, hnz]
  · rintro (h | h) <;> subst h <;> simp [load_table_query, limitClause]

/-- C8 witness at `limit = some 7` and `limit = some 0`. -/
theorem load_table_limit_clause_witness :
    ((some (7 : ℤ) = some 7) ∧ (7 : ℤ) ≠ 0 ∧
      load_table_query "p" "d" "t" (some 7) =
        "\n    " ++ "SELECT" ++ ltqA ++ "p" ++ "." ++ "d" ++ "." ++ "t" ++ ltqB ++
          ("LIMIT " ++ toString (7 : ℤ)) ++ "\n    ") ∧
    load_table_query "p" "d" "t" (some 0) = load_table_query "p" "d" "t" none := by
  refine ⟨⟨rfl, by decide, ?_⟩, ?_⟩
  · exact (load_table_limit_clause "p" "d" "t" (some 7)).1 7 rfl (by decide)
  · exact (load_table_limit_clause "p" "d" "t" (some 0)).2.1 (Or.inr rfl)

/-- C2: the configuration is JSON with required `project_id` and
`dataset_id` and optional `recommended_tables`: `load_config` returns the
empty config after reporting an error whenever the file is missing, the JSON
is invalid, or a required field is absent, and otherwise returns the parsed
config; `get_available_tables` returns `[]` when `recommended_tables` is
absent from the loaded config. -/
theorem load_config_required_fields :
    (load_config .missing =
      ([], [.uiError "❌ Configuration file not found. Please check config/bigquery_config.json"])) ∧
    (load_config .malformed = ([], [.uiError "❌ Invalid JSON in configuration file"])) ∧
    (∀ c : Config, lookupKey c "project_id" = none →
      load_config (.parsed c) =
        ([], [.uiError "❌ Error loading configuration: Missing required config field: project_id"])) ∧
    (∀ c : Config, lookupKey c "project_id" ≠ none → lookupKey c "dataset_id" = none →
      load_config (.parsed c) =
        ([], [.uiError "❌ Error loading configuration: Missing required config field: dataset_id"])) ∧
    (∀ c : Config, lookupKey c "project_id" ≠ none → lookupKey c "dataset_id" ≠ none →
      load_config (.parsed c) = (c, [])) ∧
    (∀ f : ConfigFile, lookupKey (load_config f).1 "recommended_tables" = none →
      get_available_tables f = []) := by
  refine ⟨rfl, rfl, ?_, ?_, ?_, ?_⟩
  · intro c h
    simp [load_config, h]
  · intro c h1 h2
    simp [load_config, h1, h2]
  · intro c h1 h2
    simp [load_config, h1, h2]
  · intro f h
    simp [get_available_tables, h]

/-- C2 witness: a config with only `project_id` reports the missing
`dataset_id`; a complete config without `recommended_tables` yields no
available tables. -/
theorem load_config_required_fields_witness :
    (lookupKey [("project_id", JVal.jstr "p")] "project_id" ≠ none ∧
      lookupKey [("project_id", JVal.jstr "p")] "dataset_id" = none ∧
      load_config (.parsed [("project_id", JVal.jstr "p")]) =
        ([], [.uiError "❌ Error loading configuration: Missing required config field: dataset_id"])) ∧
    (lookupKey (load_config (.parsed [("project_id", JVal.jstr "p"),
        ("dataset_id", JVal.jstr "d")])).1 "recommended_tables" = none ∧
      get_available_tables (.parsed [("project_id", JVal.jstr "p"),
        ("dataset_id", JVal.jstr "d")]) = []) := by
  refine ⟨⟨by decide, by decide, ?_⟩, ⟨by decide, ?_⟩⟩
  · exact load_config_required_fields.2.2.2.1 _ (by decide) (by decide)
  · exact load_config_required_fields.2.2.2.2.2 _ (by decide)

/-- C1: if executing the query raises an exception, `execute_query` catches
it at the query-execution boundary, surfaces a user-visible message
(`st.error`), and returns the empty dataframe instead of propagating; the
query is issued exactly once on an uncached failing call, and in every case
`execute_query` issues the query at most once (no retry or backoff). -/
theorem execute_query_error_boundary (oracle : Oracle) (q name e : String)
    (now : ℕ) (st : ExecState)
    (hmiss : cacheFind st.qcache (q, name) = none)
    (herr : oracle q = .error e) :
    ((execute_query oracle true q name now st).1 = [] ∧
     (execute_query oracle true q name now st).2.messages =
       st.messages ++ [.uiError ("❌ Error executing query \x27" ++ name ++ "\x27: " ++ e)] ∧
     (execute_query oracle true q name now st).2.issued = st.issued ++ [q]) ∧
    (∀ (o : Oracle) (ck : Bool) (st' : ExecState),
      (execute_query o ck q name now st').2.issued = st'.issued ∨
      (execute_query o ck q name now st').2.issued = st'.issued ++ [q]) := by
  constructor
  · simp [execute_query, hmiss, execute_query_body, herr]
  · intro o ck st'
    unfold execute_query execute_query_body
    rcases hfind : cacheFind st'.qcache (q, name) with _ | ⟨df, t⟩
    · cases ck
      · simp
      · rcases horacle : o q with e' | df'
        · simp
        · by_cases hdf : df'.isEmpty <;> simp [hdf]
    · by_cases hfresh : now < t + 3600
      · simp [hfresh]
      · simp only [if_neg hfresh]
        cases ck
        · simp
        · rcases horacle : o q with e' | df'
          · simp
          · by_cases hdf : df'.isEmpty <;> simp [hdf]

/-- C1 witness: a concrete failing oracle on an empty cache. -/
theorem execute_query_error_boundary_witness :
    cacheFind (⟨[], [], [], []⟩ : ExecState).qcache ("Q", "N") = none ∧
    (fun _ : String => (Except.error "boom" : Except String DataFrame)) "Q" =
      .error "boom" ∧
    ((execute_query (fun _ => .error "boom") true "Q" "N" 0 ⟨[], [], [], []⟩).1 = [] ∧
     (execute_query (fun _ => .error "boom") true "Q" "N" 0 ⟨[], [], [], []⟩).2.messages =
       [] ++ [.uiError ("❌ Error executing query \x27" ++ "N" ++ "\x27: " ++ "boom")] ∧
     (execute_query (fun _ => .error "boom") true "Q" "N" 0 ⟨[], [], [], []⟩).2.issued =
       [] ++ ["Q"]) := by
  refine ⟨rfl, rfl, ?_⟩
  exact (execute_query_error_boundary (fun _ => .error "boom") "Q" "N" "boom" 0
    ⟨[], [], [], []⟩ rfl rfl).1

/-- C4: query results are memoized with a 3600-second time-to-live: after an
uncached call of `execute_query` (resp. `load_table_data`), a repeated call
with the same arguments within the time-to-live window returns the same
dataframe from the cache and leaves the state untouched — in particular no
new query is issued to the warehouse. -/
theorem execute_query_ttl_cache (oracle : Oracle) (ck : Bool) (cfg : Config)
    (q name table : String) (lim : Option ℤ) (now1 now2 : ℕ) (st : ExecState)
    (hmiss : cacheFind st.qcache (q, name) = none)
    (htmiss : cacheFind st.tcache (table, lim) = none)
    (hts : now2 < now1 + 3600) :
    (execute_query oracle ck q name now2 (execute_query oracle ck q name now1 st).2 =
      ((execute_query oracle ck q name now1 st).1,
       (execute_query oracle ck q name now1 st).2)) ∧
    (load_table_data oracle ck cfg table lim now2
        (load_table_data oracle ck cfg table lim now1 st).2 =
      ((load_table_data oracle ck cfg table lim now1 st).1,
       (load_table_data oracle ck cfg table lim now1 st).2)) := by
  constructor
  · have hstep : execute_query oracle ck q name now1 st =
        ((execute_query_body oracle ck q name st).1,
         { (execute_query_body oracle ck q name st).2 with
            qcache := ((q, name), (execute_query_body oracle ck q name st).1, now1) ::
              (execute_query_body oracle ck q name st).2.qcache }) := by
      unfold execute_query
      rw [hmiss]
    rw [hstep]
    have hfind : cacheFind
        ({ (execute_query_body oracle ck q name st).2 with
            qcache := ((q, name), (execute_query_body oracle ck q name st).1, now1) ::
              (execute_query_body oracle ck q name st).2.qcache }).qcache (q, name) =
        some ((execute_query_body oracle ck q name st).1, now1) := by
      simp [cacheFind, List.find?]
    unfold execute_query
    rw [hfind]
    simp [hts]
  · have hstep : load_table_data oracle ck cfg table lim now1 st =
        ((load_table_data_body oracle ck cfg table lim now1 st).1,
         { (load_table_data_body oracle ck cfg table lim now1 st).2 with
            tcache := ((table, lim), (load_table_data_body oracle ck cfg table lim now1 st).1, now1) ::
              (load_table_data_body oracle ck cfg table lim now1 st).2.tcache }) := by
      unfold load_table_data
      rw [htmiss]
    rw [hstep]
    have hfind : cacheFind
        ({ (load_table_data_body oracle ck cfg table lim now1 st).2 with
            tcache := ((table, lim), (load_table_data_body oracle ck cfg table lim now1 st).1, now1) ::
              (load_table_data_body oracle ck cfg table lim now1 st).2.tcache }).tcache (table, lim) =
        some ((load_table_data_body oracle ck cfg table lim now1 st).1, now1) := by
      simp [cacheFind, List.find?]
    unfold load_table_data
    rw [hfind]
    simp [hts]

/-- C4 witness: a concrete oracle, fresh caches, and a second call 10
seconds after the first. -/
theorem execute_query_ttl_cache_witness :
    cacheFind (⟨[], [], [], []⟩ : ExecState).qcache ("Q", "N") = none ∧
    cacheFind (⟨[], [], [], []⟩ : ExecState).tcache ("orders", none) = none ∧
    (10 : ℕ) < 0 + 3600 ∧
    (execute_query (fun _ => .ok [["1"]]) true "Q" "N" 10
        (execute_query (fun _ => .ok [["1"]]) true "Q" "N" 0 ⟨[], [], [], []⟩).2 =
      ((execute_query (fun _ => .ok [["1"]]) true "Q" "N" 0 ⟨[], [], [], []⟩).1,
       (execute_query (fun _ => .ok [["1"]]) true "Q" "N" 0 ⟨[], [], [], []⟩).2)) := by
  refine ⟨rfl, rfl, by decide, ?_⟩
  exact (execute_query_ttl_cache (fun _ => .ok [["1"]]) true [] "Q" "N" "orders" none
    0 10 ⟨[], [], [], []⟩ rfl rfl (by decide)).1

/-- C3: RFM scoring is computed inside the SQL query built by
`get_customer_segments`, not in the application: the query text contains the
three `NTILE(5)` window clauses (over `last_order_date DESC`,
`total_orders ASC`, `total_spent ASC`), the `CASE` expression assigning
`customer_segment` from those scores, and ends with a final `SELECT` of
exactly the twelve listed result columns ordered by `total_spent DESC`;
`get_customer_segments` passes exactly this string to the query executor. -/
theorem rfm_scoring_in_sql (p d : String) (oracle : Oracle) (ck : Bool)
    (cfg : Config) (now : ℕ) (st : ExecState) :
    ContainsStr (customer_segments_query p d) ntileRecencyClause ∧
    ContainsStr (customer_segments_query p d) ntileFrequencyClause ∧
    ContainsStr (customer_segments_query p d) ntileMonetaryClause ∧
    ContainsStr (customer_segments_query p d) segmentCaseClause ∧
    (∃ pre, customer_segments_query p d = pre ++ csqFinalSelect) ∧
    csqFinalSelect =
      "SELECT \n        " ++ String.intercalate ",\n        " csqResultColumns ++
        "\n    FROM customer_segments\n    " ++ "ORDER BY total_spent DESC\n    " ∧
    csqResultColumns.length = 12 ∧
    (∃ pre, customer_segments_query p d = pre ++ "ORDER BY total_spent DESC\n    ") ∧
    (cfg.isEmpty = false →
      get_customer_segments oracle ck cfg now st =
        execute_query oracle ck
          (customer_segments_query (getStr cfg "project_id") (getStr cfg "dataset_id"))
          "Customer Segmentation" now st) := by
  refine ⟨⟨csqA ++ p ++ "." ++ d ++ csqB ++ p ++ "." ++ d ++ csqC ++ p ++ "." ++ d ++ csqD,
      csqE ++ ntileFrequencyClause ++ csqF ++ ntileMonetaryClause ++ csqG ++
        segmentCaseClause ++ csqH ++ csqFinalSelect, ?_⟩,
    ⟨csqA ++ p ++ "." ++ d ++ csqB ++ p ++ "." ++ d ++ csqC ++ p ++ "." ++ d ++ csqD ++
        ntileRecencyClause ++ csqE,
      csqF ++ ntileMonetaryClause ++ csqG ++ segmentCaseClause ++ csqH ++ csqFinalSelect, ?_⟩,
    ⟨csqA ++ p ++ "." ++ d ++ csqB ++ p ++ "." ++ d ++ csqC ++ p ++ "." ++ d ++ csqD ++
        ntileRecencyClause ++ csqE ++ ntileFrequencyClause ++ csqF,
      csqG ++ segmentCaseClause ++ csqH ++ csqFinalSelect, ?_⟩,
    ⟨csqA ++ p ++ "." ++ d ++ csqB ++ p ++ "." ++ d ++ csqC ++ p ++ "." ++ d ++ csqD ++
        ntileRecencyClause ++ csqE ++ ntileFrequencyClause ++ csqF ++ ntileMonetaryClause ++
        csqG,
      csqH ++ csqFinalSelect, ?_⟩,
    ⟨csqA ++ p ++ "." ++ d ++ csqB ++ p ++ "." ++ d ++ csqC ++ p ++ "." ++ d ++ csqD ++
        ntileRecencyClause ++ csqE ++ ntileFrequencyClause ++ csqF ++ ntileMonetaryClause ++
        csqG ++ segmentCaseClause ++ csqH, ?_⟩,
    rfl, by decide, ?_, ?_⟩
  · simp only [customer_segments_query, String.append_assoc]
  · simp only [customer_segments_query, String.append_assoc]
  · simp only [customer_segments_query, String.append_assoc]
  · simp only [customer_segments_query, String.append_assoc]
  · simp only [customer_segments_query, String.append_assoc]
  · exact ⟨csqA ++ p ++ "." ++ d ++ csqB ++ p ++ "." ++ d ++ csqC ++ p ++ "." ++ d ++ csqD ++
      ntileRecencyClause ++ csqE ++ ntileFrequencyClause ++ csqF ++ ntileMonetaryClause ++
      csqG ++ segmentCaseClause ++ csqH ++ ("SELECT \n        " ++
        String.intercalate ",\n        " csqResultColumns ++
        "\n    FROM customer_segments\n    "),
      by simp only [customer_segments_query, csqFinalSelect, String.append_assoc]⟩
  · intro hcfg
    simp [get_customer_segments, hcfg]

/-- C3 witness: a non-empty config dispatches the RFM query string. -/
theorem rfm_scoring_in_sql_witness :
    (([("project_id", JVal.jstr "p"), ("dataset_id", JVal.jstr "d")] : Config).isEmpty
        = false) ∧
    get_customer_segments (fun _ => .ok [["1"]]) true
        [("project_id", JVal.jstr "p"), ("dataset_id", JVal.jstr "d")] 0 ⟨[], [], [], []⟩ =
      execute_query (fun _ => .ok [["1"]]) true
        (customer_segments_query
          (getStr [("project_id", JVal.jstr "p"), ("dataset_id", JVal.jstr "d")] "project_id")
          (getStr [("project_id", JVal.jstr "p"), ("dataset_id", JVal.jstr "d")] "dataset_id"))
        "Customer Segmentation" 0 ⟨[], [], [], []⟩ := by
  refine ⟨rfl, ?_⟩
  exact (rfm_scoring_in_sql "p" "d" (fun _ => .ok [["1"]]) true
    [("project_id", JVal.jstr "p"), ("dataset_id", JVal.jstr "d")] 0
    ⟨[], [], [], []⟩).2.2.2.2.2.2.2.2 rfl

set_option maxRecDepth 16000 in
set_option maxHeartbeats 4000000 in
/-- The query contains no state-modifying SQL keyword at the configured
identifiers. -/
theorem customer_segments_query_nowrite : hasWriteKeyword (customer_segments_query "my-project" "my_dataset") = false := by decide

set_option maxRecDepth 16000 in
set_option maxHeartbeats 4000000 in
/-- The query contains no state-modifying SQL keyword at the configured
identifiers. -/
theorem order_performance_query_nowrite : hasWriteKeyword (order_performance_query "my-project" "my_dataset") = false := by decide

set_option maxRecDepth 16000 in
set_option maxHeartbeats 4000000 in
/-- The query contains no state-modifying SQL keyword at the configured
identifiers. -/
theorem review_insights_query_nowrite : hasWriteKeyword (review_insights_query "my-project" "my_dataset") = false := by decide

set_option maxRecDepth 16000 in
set_option maxHeartbeats 4000000 in
/-- The query contains no state-modifying SQL keyword at the configured
identifiers. -/
theorem geographic_summary_query_nowrite : hasWriteKeyword (geographic_summary_query "my-project" "my_dataset") = false := by decide

set_option maxRecDepth 16000 in
set_option maxHeartbeats 4000000 in
/-- The query contains no state-modifying SQL keyword at the configured
identifiers. -/
theorem load_table_query_nowrite : hasWriteKeyword (load_table_query "my-project" "my_dataset" "fact_order_items" none) = false := by decide

set_option maxRecDepth 16000 in
set_option maxHeartbeats 4000000 in
/-- The query contains no state-modifying SQL keyword at the configured
identifiers. -/
theorem clientTestQuery_nowrite : hasWriteKeyword (clientTestQuery) = false := by decide

set_option maxRecDepth 16000 in
set_option maxHeartbeats 4000000 in
/-- The query contains no state-modifying SQL keyword at the configured
identifiers. -/
theorem caq1_nowrite : hasWriteKeyword (caq1 "my-project" "my_dataset") = false := by decide

set_option maxRecDepth 16000 in
set_option maxHeartbeats 4000000 in
/-- The query contains no state-modifying SQL keyword at the configured
identifiers. -/
theorem caq2_nowrite : hasWriteKeyword (caq2 "my-project" "my_dataset") = false := by decide

set_option maxRecDepth 16000 in
set_option maxHeartbeats 4000000 in
/-- The query contains no state-modifying SQL keyword at the configured
identifiers. -/
theorem caq3_nowrite : hasWriteKeyword (caq3 "my-project" "my_dataset") = false := by decide

set_option maxRecDepth 16000 in
set_option maxHeartbeats 4000000 in
/-- The query contains no state-modifying SQL keyword at the configured
identifiers. -/
theorem caq4_nowrite : hasWriteKeyword (caq4 "my-project" "my_dataset") = false := by decide

set_option maxRecDepth 16000 in
set_option maxHeartbeats 4000000 in
/-- The query contains no state-modifying SQL keyword at the configured
identifiers. -/
theorem caq5_nowrite : hasWriteKeyword (caq5 "my-project" "my_dataset") = false := by decide

set_option maxRecDepth 16000 in
set_option maxHeartbeats 4000000 in
/-- The query contains no state-modifying SQL keyword at the configured
identifiers. -/
theorem caq6_nowrite : hasWriteKeyword (caq6 "my-project" "my_dataset") = false := by decide

set_option maxRecDepth 16000 in
set_option maxHeartbeats 4000000 in
/-- The query contains no state-modifying SQL keyword at the configured
identifiers. -/
theorem oaq1_nowrite : hasWriteKeyword (oaq1) = false := by decide

set_option maxRecDepth 16000 in
set_option maxHeartbeats 4000000 in
/-- The query contains no state-modifying SQL keyword at the configured
identifiers. -/
theorem oaq2_nowrite : hasWriteKeyword (oaq2) = false := by decide

set_option maxRecDepth 16000 in
set_option maxHeartbeats 4000000 in
/-- The query contains no state-modifying SQL keyword at the configured
identifiers. -/
theorem oaq3_nowrite : hasWriteKeyword (oaq3) = false := by decide

set_option maxRecDepth 16000 in
set_option maxHeartbeats 4000000 in
/-- The query contains no state-modifying SQL keyword at the configured
identifiers. -/
theorem oaq4_nowrite : hasWriteKeyword (oaq4) = false := by decide

set_option maxRecDepth 16000 in
set_option maxHeartbeats 4000000 in
/-- The query contains no state-modifying SQL keyword at the configured
identifiers. -/
theorem raq1_nowrite : hasWriteKeyword (raq1 "my-project" "my_dataset") = false := by decide

set_option maxRecDepth 16000 in
set_option maxHeartbeats 4000000 in
/-- The query contains no state-modifying SQL keyword at the configured
identifiers. -/
theorem gaq1_nowrite : hasWriteKeyword (gaq1 "my-project" "my_dataset") = false := by decide

set_option maxRecDepth 16000 in
set_option maxHeartbeats 4000000 in
/-- The query contains no state-modifying SQL keyword at the configured
identifiers. -/
theorem gaq2_nowrite : hasWriteKeyword (gaq2 "my-project" "my_dataset") = false := by decide

set_option maxRecDepth 16000 in
set_option maxHeartbeats 4000000 in
/-- The query contains no state-modifying SQL keyword at the configured
identifiers. -/
theorem csgq1_nowrite : hasWriteKeyword (csgq1) = false := by decide

set_option maxRecDepth 16000 in
set_option maxHeartbeats 4000000 in
/-- The query contains no state-modifying SQL keyword at the configured
identifiers. -/
theorem csgq2_nowrite : hasWriteKeyword (csgq2) = false := by decide

set_option maxRecDepth 16000 in
set_option maxHeartbeats 4000000 in
/-- The query contains no state-modifying SQL keyword at the configured
identifiers. -/
theorem csgq3_nowrite : hasWriteKeyword (csgq3) = false := by decide

set_option maxRecDepth 16000 in
set_option maxHeartbeats 16000000 in
/-- C6: the program is read-only with respect to the warehouse: every SQL
string it constructs — the four analysis queries of the data layer, the
`SELECT *` table loader for every table name and limit, the client's
connection test, and all sixteen queries built by the five page scripts under
`src/pages/` (each page load issues only these) — begins (after leading
whitespace) with the keyword `SELECT` or `WITH`, and at the configured
identifiers none of them contains any state-modifying SQL keyword (`INSERT`,
`UPDATE`, `DELETE`, `DROP`, `CREATE`, `ALTER`, `MERGE`, `TRUNCATE`). -/
theorem queries_read_only (p d t : String) (lim : Option ℤ) :
    ReadOnlyStart (customer_segments_query p d) ∧
    ReadOnlyStart (order_performance_query p d) ∧
    ReadOnlyStart (review_insights_query p d) ∧
    ReadOnlyStart (geographic_summary_query p d) ∧
    ReadOnlyStart (load_table_query p d t lim) ∧
    ReadOnlyStart clientTestQuery ∧
    ReadOnlyStart (caq1 p d) ∧
    ReadOnlyStart (caq2 p d) ∧
    ReadOnlyStart (caq3 p d) ∧
    ReadOnlyStart (caq4 p d) ∧
    ReadOnlyStart (caq5 p d) ∧
    ReadOnlyStart (caq6 p d) ∧
    ReadOnlyStart oaq1 ∧
    ReadOnlyStart oaq2 ∧
    ReadOnlyStart oaq3 ∧
    ReadOnlyStart oaq4 ∧
    ReadOnlyStart (raq1 p d) ∧
    ReadOnlyStart (gaq1 p d) ∧
    ReadOnlyStart (gaq2 p d) ∧
    ReadOnlyStart csgq1 ∧
    ReadOnlyStart csgq2 ∧
    ReadOnlyStart csgq3 ∧
    hasWriteKeyword (customer_segments_query "my-project" "my_dataset") = false ∧
    hasWriteKeyword (order_performance_query "my-project" "my_dataset") = false ∧
    hasWriteKeyword (review_insights_query "my-project" "my_dataset") = false ∧
    hasWriteKeyword (geographic_summary_query "my-project" "my_dataset") = false ∧
    hasWriteKeyword (load_table_query "my-project" "my_dataset" "fact_order_items" none) = false ∧
    hasWriteKeyword (clientTestQuery) = false ∧
    hasWriteKeyword (caq1 "my-project" "my_dataset") = false ∧
    hasWriteKeyword (caq2 "my-project" "my_dataset") = false ∧
    hasWriteKeyword (caq3 "my-project" "my_dataset") = false ∧
    hasWriteKeyword (caq4 "my-project" "my_dataset") = false ∧
    hasWriteKeyword (caq5 "my-project" "my_dataset") = false ∧
    hasWriteKeyword (caq6 "my-project" "my_dataset") = false ∧
    hasWriteKeyword (oaq1) = false ∧
    hasWriteKeyword (oaq2) = false ∧
    hasWriteKeyword (oaq3) = false ∧
    hasWriteKeyword (oaq4) = false ∧
    hasWriteKeyword (raq1 "my-project" "my_dataset") = false ∧
    hasWriteKeyword (gaq1 "my-project" "my_dataset") = false ∧
    hasWriteKeyword (gaq2 "my-project" "my_dataset") = false ∧
    hasWriteKeyword (csgq1) = false ∧
    hasWriteKeyword (csgq2) = false ∧
    hasWriteKeyword (csgq3) = false := by
  refine ⟨⟨"\n    ", csqA1 ++ p ++ "." ++ d ++ csqB ++ p ++ "." ++ d ++ csqC ++ p ++ "." ++
      d ++ csqD ++ ntileRecencyClause ++ csqE ++ ntileFrequencyClause ++ csqF ++
      ntileMonetaryClause ++ csqG ++ segmentCaseClause ++ csqH ++ csqFinalSelect,
      Or.inr ?_, by decide⟩,
    ⟨"\n    ", opqA ++ p ++ "." ++ d ++ opqB ++ p ++ "." ++ d ++ opqC, Or.inr ?_, by decide⟩,
    ⟨"\n    ", riqA ++ p ++ "." ++ d ++ riqB ++ p ++ "." ++ d ++ riqC ++ p ++ "." ++ d ++
      riqD ++ p ++ "." ++ d ++ riqE ++ p ++ "." ++ d ++ riqF, Or.inr ?_, by decide⟩,
    ⟨"\n    ", gsqA ++ p ++ "." ++ d ++ gsqB ++ p ++ "." ++ d ++ gsqC ++ p ++ "." ++ d ++
      gsqD, Or.inr ?_, by decide⟩,
    ⟨"\n    ", ltqA ++ p ++ "." ++ d ++ "." ++ t ++ ltqB ++ limitClause lim ++ "\n    ",
      Or.inl ?_, by decide⟩,
    ⟨"", " 1 as test", Or.inl ?_, by decide⟩,
    ⟨"\n    ", caq1tail p d, Or.inr ?_, by decide⟩,
    ⟨"\n    ", caq2tail p d, Or.inr ?_, by decide⟩,
    ⟨"\n    ", caq3tail p d, Or.inr ?_, by decide⟩,
    ⟨"\n    ", caq4tail p d, Or.inr ?_, by decide⟩,
    ⟨"\n    ", caq5tail p d, Or.inr ?_, by decide⟩,
    ⟨"\n    ", caq6tail p d, Or.inr ?_, by decide⟩,
    ⟨"\n        ", oaq1tail, Or.inl ?_, by decide⟩,
    ⟨"\n        ", oaq2tail, Or.inl ?_, by decide⟩,
    ⟨"\n        ", oaq3tail, Or.inl ?_, by decide⟩,
    ⟨"\n        ", oaq4tail, Or.inl ?_, by decide⟩,
    ⟨"\n    ", raq1tail p d, Or.inr ?_, by decide⟩,
    ⟨"\n    ", gaq1tail p d, Or.inr ?_, by decide⟩,
    ⟨"\n    ", gaq2tail p d, Or.inl ?_, by decide⟩,
    ⟨"\n    ", csgq1tail, Or.inl ?_, by decide⟩,
    ⟨"\n    ", csgq2tail, Or.inl ?_, by decide⟩,
    ⟨"\n    ", csgq3tail, Or.inl ?_, by decide⟩,
    customer_segments_query_nowrite,
    order_performance_query_nowrite,
    review_insights_query_nowrite,
    geographic_summary_query_nowrite,
    load_table_query_nowrite,
    clientTestQuery_nowrite,
    caq1_nowrite,
    caq2_nowrite,
    caq3_nowrite,
    caq4_nowrite,
    caq5_nowrite,
    caq6_nowrite,
    oaq1_nowrite,
    oaq2_nowrite,
    oaq3_nowrite,
    oaq4_nowrite,
    raq1_nowrite,
    gaq1_nowrite,
    gaq2_nowrite,
    csgq1_nowrite,
    csgq2_nowrite,
    csgq3_nowrite⟩
  · simp only [customer_segments_query, csqA, String.append_assoc]
  · simp only [order_performance_query, String.append_assoc]
  · simp only [review_insights_query, String.append_assoc]
  · simp only [geographic_summary_query, String.append_assoc]
  · simp only [load_table_query, String.append_assoc]
  · simp only [clientTestQuery]
    exact ((String.empty_append _).symm)
  · simp only [caq1, String.append_assoc]
  · simp only [caq2, String.append_assoc]
  · simp only [caq3, String.append_assoc]
  · simp only [caq4, String.append_assoc]
  · simp only [caq5, String.append_assoc]
  · simp only [caq6, String.append_assoc]
  · simp only [oaq1, String.append_assoc]
  · simp only [oaq2, String.append_assoc]
  · simp only [oaq3, String.append_assoc]
  · simp only [oaq4, String.append_assoc]
  · simp only [raq1, String.append_assoc]
  · simp only [gaq1, String.append_assoc]
  · simp only [gaq2, String.append_assoc]
  · simp only [csgq1, String.append_assoc]
  · simp only [csgq2, String.append_assoc]
  · simp only [csgq3, String.append_assoc]

/-- C7: currency and percentage formatting is consistent and total: for every
amount, `format_currency` returns `"$<amount/1000000 to 1 decimal>M"` when
`amount ≥ 1,000,000`, `"$<amount/1000 to 1 decimal>K"` when
`1,000 ≤ amount < 1,000,000`, and `"$<amount to 2 decimals>"` otherwise; for
every value and decimal count, `format_percentage` renders the value to that
many decimal places followed by `"%"`; concrete evaluations included. -/
theorem format_helpers_spec (amount v : ℚ) (dd : ℕ) :
    ((1000000 : ℚ) ≤ amount →
      format_currency amount = "$" ++ toFixed (amount / 1000000) 1 ++ "M") ∧
    ((1000 : ℚ) ≤ amount → amount < 1000000 →
      format_currency amount = "$" ++ toFixed (amount / 1000) 1 ++ "K") ∧
    (amount < 1000 → format_currency amount = "$" ++ toFixed amount 2) ∧
    (format_percentage v dd = toFixed v dd ++ "%") ∧
    format_currency 2500000 = "$2.5M" ∧
    format_currency 1500 = "$1.5K" ∧
    format_currency (9999 / 100) = "$99.99" ∧
    format_percentage (1234 / 100) 1 = "12.3%" := by
  refine ⟨?_, ?_, ?_, rfl, ?_, ?_, ?_, ?_⟩
  · intro h
    rw [format_currency, if_pos h]
  · intro h1 h2
    rw [format_currency, if_neg (not_le.mpr h2), if_pos h1]
  · intro h
    rw [format_currency, if_neg (not_le.mpr (h.trans (by norm_num))),
      if_neg (not_le.mpr h)]
  · norm_num [format_currency, toFixed, rhe, abs_of_pos]
    try decide
  · norm_num [format_currency, toFixed, rhe, abs_of_pos]
    try decide
  · norm_num [format_currency, toFixed, rhe, abs_of_pos]
    try decide
  · norm_num [format_percentage, toFixed, rhe, abs_of_pos]
    try decide

/-- C7 witness: the three branches at concrete amounts. -/
theorem format_helpers_spec_witness :
    ((1000000 : ℚ) ≤ 2500000 ∧
      format_currency 2500000 = "$" ++ toFixed ((2500000 : ℚ) / 1000000) 1 ++ "M") ∧
    ((1000 : ℚ) ≤ 1500 ∧ (1500 : ℚ) < 1000000 ∧
      format_currency 1500 = "$" ++ toFixed ((1500 : ℚ) / 1000) 1 ++ "K") ∧
    ((9999 / 100 : ℚ) < 1000 ∧
      format_currency (9999 / 100) = "$" ++ toFixed ((9999 : ℚ) / 100) 2) := by
  refine ⟨⟨by norm_num, ?_⟩, ⟨by norm_num, by norm_num, ?_⟩, ⟨by norm_num, ?_⟩⟩
  · exact (format_helpers_spec 2500000 0 0).1 (by norm_num)
  · exact (format_helpers_spec 1500 0 0).2.1 (by norm_num) (by norm_num)
  · exact (format_helpers_spec (9999 / 100) 0 0).2.2.1 (by norm_num)

/-- Descending insertion sort on (key, value) pairs yields a list sorted by
non-increasing second component. -/
theorem sortedDesc_insertionSort (l : List (ℚ × ℚ)) :
    List.Sorted (fun a b : ℚ × ℚ => b.2 ≤ a.2)
      (List.insertionSort (fun a b => b.2 ≤ a.2) l) := by
  haveI : IsTotal (ℚ × ℚ) (fun a b => b.2 ≤ a.2) := ⟨fun a b => le_total b.2 a.2⟩
  haveI : IsTrans (ℚ × ℚ) (fun a b => b.2 ≤ a.2) := ⟨fun a b c h1 h2 => le_trans h2 h1⟩
  exact List.sorted_insertionSort _ l

/-- C9: `get_top_n_analysis` returns the empty dataframe when the input is
empty or `group_by`/`value_col` is missing; an `agg_func` outside
`{sum, mean, count, max, min}` silently falls back to `sum`; otherwise the
result has at most `n` rows, sorted by the aggregated value in descending
order, with one row per distinct group (the key column has no duplicates),
under the header `[group_by, value_col]`. -/
theorem get_top_n_spec (df : DFrame) (gb vc : String) (n : ℕ) (f : String) :
    ((df.rows.isEmpty ∨ gb ∉ df.cols ∨ vc ∉ df.cols) →
      get_top_n_analysis df gb vc n f = ⟨[], []⟩) ∧
    (f ∉ (["sum", "mean", "count", "max", "min"] : List String) →
      get_top_n_analysis df gb vc n f = get_top_n_analysis df gb vc n "sum") ∧
    (¬(df.rows.isEmpty ∨ gb ∉ df.cols ∨ vc ∉ df.cols) →
      (get_top_n_analysis df gb vc n f).rows.length ≤ n ∧
      List.Sorted (fun a b : ℚ => b ≤ a)
        ((get_top_n_analysis df gb vc n f).rows.map (fun r => r.getD 1 0)) ∧
      ((get_top_n_analysis df gb vc n f).rows.map (fun r => r.getD 0 0)).Nodup ∧
      (get_top_n_analysis df gb vc n f).cols = [gb, vc]) := by
  refine ⟨?_, ?_, ?_⟩
  · intro h
    simp only [get_top_n_analysis, if_pos h]
  · intro hf
    by_cases hg : df.rows.isEmpty ∨ gb ∉ df.cols ∨ vc ∉ df.cols
    · simp only [get_top_n_analysis, if_pos hg]
    · simp only [get_top_n_analysis, if_neg hg]
      simp [hf]
  · intro hg
    simp only [get_top_n_analysis, if_neg hg]
    refine ⟨?_, ?_, ?_, by trivial⟩
    · simp [List.length_take]
    · have hmap : (((List.insertionSort (fun a b : ℚ × ℚ => b.2 ≤ a.2)
          (((df.rows.map (fun r => r.getD (colIdx df gb) 0)).dedup).map (fun k =>
            (k, aggApply (if f ∈ (["sum", "mean", "count", "max", "min"] : List String)
                then f else "sum")
              ((df.rows.filter (fun r => r.getD (colIdx df gb) 0 == k)).map
                (fun r => r.getD (colIdx df vc) 0)))))).take n).map
            (fun kv => [kv.1, kv.2])).map (fun r => r.getD 1 0) =
          ((List.insertionSort (fun a b : ℚ × ℚ => b.2 ≤ a.2)
          (((df.rows.map (fun r => r.getD (colIdx df gb) 0)).dedup).map (fun k =>
            (k, aggApply (if f ∈ (["sum", "mean", "count", "max", "min"] : List String)
                then f else "sum")
              ((df.rows.filter (fun r => r.getD (colIdx df gb) 0 == k)).map
                (fun r => r.getD (colIdx df vc) 0)))))).take n).map (fun kv => kv.2) := by
        simp only [List.map_map]
        rfl
      rw [hmap]
      refine List.Pairwise.map _ (fun a b h => h) ?_
      exact List.Pairwise.sublist (List.take_sublist _ _) (sortedDesc_insertionSort _)
    · have hmap : ((((List.insertionSort (fun a b : ℚ × ℚ => b.2 ≤ a.2)
          (((df.rows.map (fun r => r.getD (colIdx df gb) 0)).dedup).map (fun k =>
            (k, aggApply (if f ∈ (["sum", "mean", "count", "max", "min"] : List String)
                then f else "sum")
              ((df.rows.filter (fun r => r.getD (colIdx df gb) 0 == k)).map
                (fun r => r.getD (colIdx df vc) 0)))))).take n).map
            (fun kv => [kv.1, kv.2])).map (fun r => r.getD 0 0)) =
          ((List.insertionSort (fun a b : ℚ × ℚ => b.2 ≤ a.2)
          (((df.rows.map (fun r => r.getD (colIdx df gb) 0)).dedup).map (fun k =>
            (k, aggApply (if f ∈ (["sum", "mean", "count", "max", "min"] : List String)
                then f else "sum")
              ((df.rows.filter (fun r => r.getD (colIdx df gb) 0 == k)).map
                (fun r => r.getD (colIdx df vc) 0)))))).take n).map (fun kv => kv.1) := by
        simp only [List.map_map]
        rfl
      rw [hmap, List.map_take]
      refine List.Nodup.sublist (List.take_sublist _ _) ?_
      rw [List.Perm.nodup_iff (List.Perm.map _ (List.perm_insertionSort _ _))]
      rw [List.map_map]
      have hcomp : ((fun kv : ℚ × ℚ => kv.1) ∘ (fun k : ℚ =>
          (k, aggApply (if f ∈ (["sum", "mean", "count", "max", "min"] : List String)
              then f else "sum")
            ((df.rows.filter (fun r => r.getD (colIdx df gb) 0 == k)).map
              (fun r => r.getD (colIdx df vc) 0))))) = fun k => k := rfl
      rw [hcomp]
      simpa using List.nodup_dedup _

/-- C9 witness: a concrete two-group dataframe and an unknown `agg_func`. -/
theorem get_top_n_spec_witness :
    (¬((⟨["state", "rev"], [[1, 10], [2, 20]]⟩ : DFrame).rows.isEmpty ∨
        "state" ∉ (⟨["state", "rev"], [[1, 10], [2, 20]]⟩ : DFrame).cols ∨
        "rev" ∉ (⟨["state", "rev"], [[1, 10], [2, 20]]⟩ : DFrame).cols)) ∧
    ((get_top_n_analysis ⟨["state", "rev"], [[1, 10], [2, 20]]⟩ "state" "rev" 5
        "sum").rows.length ≤ 5 ∧
      List.Sorted (fun a b : ℚ => b ≤ a)
        ((get_top_n_analysis ⟨["state", "rev"], [[1, 10], [2, 20]]⟩ "state" "rev" 5
          "sum").rows.map (fun r => r.getD 1 0)) ∧
      ((get_top_n_analysis ⟨["state", "rev"], [[1, 10], [2, 20]]⟩ "state" "rev" 5
        "sum").rows.map (fun r => r.getD 0 0)).Nodup ∧
      (get_top_n_analysis ⟨["state", "rev"], [[1, 10], [2, 20]]⟩ "state" "rev" 5
        "sum").cols = ["state", "rev"]) ∧
    ("avg" ∉ (["sum", "mean", "count", "max", "min"] : List String) ∧
      get_top_n_analysis ⟨["state", "rev"], [[1, 10], [2, 20]]⟩ "state" "rev" 5 "avg" =
        get_top_n_analysis ⟨["state", "rev"], [[1, 10], [2, 20]]⟩ "state" "rev" 5 "sum") := by
  refine ⟨by decide, ?_, by decide, ?_⟩
  · exact (get_top_n_spec ⟨["state", "rev"], [[1, 10], [2, 20]]⟩ "state" "rev" 5
      "sum").2.2 (by decide)
  · exact (get_top_n_spec ⟨["state", "rev"], [[1, 10], [2, 20]]⟩ "state" "rev" 5
      "avg").2.1 (by decide)

/-- C5 (counterexample): it is not the case that client code applies only
formatting to the returned rows: on the dataframe with a `price` column
holding 10 and 20, `calculate_business_metrics` displays `"$30.00"`
(a client-side sum) and `"$15.00"` (a client-side mean), neither of which is
a formatting of any cell of the input. -/
theorem business_metrics_not_only_formatting :
    ¬ OnlyFormatsCells [("price", [10, 20])] := by
  have e1 : calculate_business_metrics [("price", [10, 20])] =
      [("Total Revenue", "$" ++ groupedFixed ([10, 20] : List ℚ).sum 2),
       ("Average Order Value", "$" ++ groupedFixed (meanQ [10, 20]) 2)] := by
    simp [calculate_business_metrics, bdfIsEmpty, bdfNames, getCol]
  have e2 : ([10, 20] : List ℚ).sum = 30 := by norm_num
  have e3 : meanQ [10, 20] = 15 := by norm_num [meanQ]
  have e4 : groupedFixed 30 2 = "30.00" := by
    norm_num [groupedFixed, natGrouped, rhe, abs_of_pos]
    try decide
  have e5 : groupedFixed 15 2 = "15.00" := by
    norm_num [groupedFixed, natGrouped, rhe, abs_of_pos]
    try decide
  have hmetrics : calculate_business_metrics [("price", [10, 20])] =
      [("Total Revenue", "$30.00"), ("Average Order Value", "$15.00")] := by
    rw [e1, e2, e3, e4, e5]
    rfl
  intro h
  obtain ⟨c, ⟨col, hcol, hc⟩, hf⟩ := h ("Total Revenue", "$30.00")
    (by rw [hmetrics]; exact List.mem_cons_self _ _)
  have hcol' : col = ("price", ([10, 20] : List ℚ)) := by simpa using hcol
  subst hcol'
  have hc' : c = 10 ∨ c = 20 := by simpa using hc
  have f10 : cellFormats 10 = ["$10.00", "10.00", "10", "10.00", "10.00/5"] := by
    norm_num [cellFormats, groupedFixed, toFixed, natGrouped, rhe, abs_of_pos]
    try decide
  have f20 : cellFormats 20 = ["$20.00", "20.00", "20", "20.00", "20.00/5"] := by
    norm_num [cellFormats, groupedFixed, toFixed, natGrouped, rhe, abs_of_pos]
    try decide
  rcases hc' with rfl | rfl
  · rw [f10] at hf
    exact absurd hf (by decide)
  · rw [f20] at hf
    exact absurd hf (by decide)

/-- C5 (amended): aggregation is pushed into SQL for the warehouse queries,
but the client also computes aggregates over the returned rows before
formatting them: `calculate_business_metrics` displays the client-side sum
and mean of the revenue column, and `create_customer_intelligence` in
`Main.py` computes per-segment revenue sums with a client-side groupby. -/
theorem client_side_aggregation (df : BDF) (rows : List (String × ℚ)) (k : String) :
    (bdfIsEmpty df = false → "total_spent" ∉ bdfNames df → "price" ∈ bdfNames df →
      ("Total Revenue", "$" ++ groupedFixed (getCol df "price").sum 2) ∈
        calculate_business_metrics df ∧
      ("Average Order Value", "$" ++ groupedFixed (meanQ (getCol df "price")) 2) ∈
        calculate_business_metrics df) ∧
    (k ∈ rows.map (fun r => r.1) →
      (k, ((rows.filter (fun r => r.1 == k)).map (fun r => r.2)).sum) ∈
        main_segment_revenue rows) := by
  constructor
  · intro h1 h2 h3
    constructor <;> simp [calculate_business_metrics, h1, h2, h3]
  · intro hk
    simp only [main_segment_revenue, List.mem_insertionSort]
    exact List.mem_map.mpr ⟨k, List.mem_dedup.mpr hk, rfl⟩

/-- C5 (amended) witness: the concrete revenue column and segment rows. -/
theorem client_side_aggregation_witness :
    (bdfIsEmpty [("price", ([10, 20] : List ℚ))] = false ∧
      "total_spent" ∉ bdfNames [("price", ([10, 20] : List ℚ))] ∧
      "price" ∈ bdfNames [("price", ([10, 20] : List ℚ))] ∧
      ("Total Revenue", "$" ++ groupedFixed (getCol [("price", ([10, 20] : List ℚ))]
          "price").sum 2) ∈
        calculate_business_metrics [("price", ([10, 20] : List ℚ))]) ∧
    ("A" ∈ ([("A", (5 : ℚ)), ("A", 7)].map (fun r => r.1)) ∧
      ("A", (([("A", (5 : ℚ)), ("A", 7)].filter (fun r => r.1 == "A")).map
          (fun r => r.2)).sum) ∈
        main_segment_revenue [("A", 5), ("A", 7)]) := by
  refine ⟨⟨by decide, by decide, by decide, ?_⟩, ⟨by decide, ?_⟩⟩
  · exact ((client_side_aggregation [("price", [10, 20])] [] "A").1
      (by decide) (by decide) (by decide)).1
  · exact (client_side_aggregation [("price", [10, 20])] [("A", 5), ("A", 7)] "A").2
      (by decide)

/-- Folding `min` over a list bounds the seed and every element. -/
theorem foldl_min_le (xs : List ℤ) : ∀ a : ℤ, xs.foldl min a ≤ a ∧ ∀ z ∈ xs, xs.foldl min a ≤ z := by
  induction xs with
  | nil => intro a; exact ⟨le_refl _, by simp⟩
  | cons y ys ih =>
    intro a
    refine ⟨le_trans (ih (min a y)).1 (min_le_left a y), ?_⟩
    intro z hz
    rcases List.mem_cons.mp hz with rfl | hz'
    · exact le_trans (ih (min a z)).1 (min_le_right a z)
    · exact (ih (min a y)).2 z hz'

/-- Folding `max` over a list dominates the seed and every element. -/
theorem le_foldl_max (xs : List ℤ) : ∀ a : ℤ, a ≤ xs.foldl max a ∧ ∀ z ∈ xs, z ≤ xs.foldl max a := by
  induction xs with
  | nil => intro a; exact ⟨le_refl _, by simp⟩
  | cons y ys ih =>
    intro a
    refine ⟨le_trans (le_max_left a y) (ih (max a y)).1, ?_⟩
    intro z hz
    rcases List.mem_cons.mp hz with rfl | hz'
    · exact le_trans (le_max_right a z) (ih (max a z)).1
    · exact (ih (max a y)).2 z hz'

/-- `zmin` is a lower bound of the column. -/
theorem zmin_le {l : List ℤ} {z : ℤ} (h : z ∈ l) : zmin l ≤ z := by
  cases l with
  | nil => cases h
  | cons x xs =>
    rcases List.mem_cons.mp h with rfl | hz
    · exact (foldl_min_le xs z).1
    · exact (foldl_min_le xs x).2 z hz

/-- `zmax` is an upper bound of the column. -/
theorem le_zmax {l : List ℤ} {z : ℤ} (h : z ∈ l) : z ≤ zmax l := by
  cases l with
  | nil => cases h
  | cons x xs =>
    rcases List.mem_cons.mp h with rfl | hz
    · exact (le_foldl_max xs z).1
    · exact (le_foldl_max xs x).2 z hz

/-- `intsOf` on a cons of an integer cell. -/
theorem intsOf_cons_ival (z : ℤ) (vs : List PCell) :
    intsOf (PCell.ival z :: vs) = z :: intsOf vs := rfl

/-- An integer cast that fixes every integer cell of a well-typed column is
the identity on the column. -/
theorem mapIval_id {g : ℤ → ℤ} {vs : List PCell}
    (hall : vs.all (fun v => match v with | .ival _ => true | _ => false) = true)
    (hg : ∀ z ∈ intsOf vs, g z = z) : mapIval g vs = vs := by
  induction vs with
  | nil => rfl
  | cons v vs ih =>
    simp only [List.all_cons, Bool.and_eq_true] at hall
    cases v with
    | ival z =>
      rw [intsOf_cons_ival] at hg
      show PCell.ival (g z) :: mapIval g vs = PCell.ival z :: vs
      rw [hg z (List.mem_cons_self _ _),
        ih hall.2 (fun z' hz' => hg z' (List.mem_cons_of_mem _ hz'))]
    | fval q => simp at hall
    | sval s => simp at hall

/-- The `int64` branch of `optimize_dataframe_memory` preserves cell values
exactly (the guards make the wrapping casts the identity) and narrows only to
dtypes whose range contains all the column values. -/
theorem intNarrow_spec (vs : List PCell)
    (hwt : vs.all (fun v => match v with | .ival _ => true | _ => false) = true) :
    (intNarrow vs).values = vs ∧
    ((intNarrow vs).dtype ≠ .int64 →
      ∀ lo hi, dtypeRange (intNarrow vs).dtype = some (lo, hi) →
        ∀ z ∈ intsOf vs, lo ≤ z ∧ z ≤ hi) := by
  unfold intNarrow
  dsimp only
  split_ifs with h1 h2 h3 h4 h5 h6 h7
  · refine ⟨mapIval_id hwt (fun z hz => ?_), ?_⟩
    · have := le_trans h1 (zmin_le hz)
      have := lt_of_le_of_lt (le_zmax hz) h2
      unfold wrapU
      omega
    · intro _ lo hi hr z hz
      simp only [dtypeRange, Option.some.injEq, Prod.mk.injEq] at hr
      have := le_trans h1 (zmin_le hz)
      have := lt_of_le_of_lt (le_zmax hz) h2
      omega
  · refine ⟨mapIval_id hwt (fun z hz => ?_), ?_⟩
    · have := le_trans h1 (zmin_le hz)
      have := lt_of_le_of_lt (le_zmax hz) h3
      unfold wrapU
      omega
    · intro _ lo hi hr z hz
      simp only [dtypeRange, Option.some.injEq, Prod.mk.injEq] at hr
      have := le_trans h1 (zmin_le hz)
      have := lt_of_le_of_lt (le_zmax hz) h3
      omega
  · refine ⟨mapIval_id hwt (fun z hz => ?_), ?_⟩
    · have := le_trans h1 (zmin_le hz)
      have := lt_of_le_of_lt (le_zmax hz) h4
      unfold wrapU
      omega
    · intro _ lo hi hr z hz
      simp only [dtypeRange, Option.some.injEq, Prod.mk.injEq] at hr
      have := le_trans h1 (zmin_le hz)
      have := lt_of_le_of_lt (le_zmax hz) h4
      omega
  · exact ⟨rfl, fun h => absurd rfl h⟩
  · refine ⟨mapIval_id hwt (fun z hz => ?_), ?_⟩
    · have := lt_of_lt_of_le h5.1 (zmin_le hz)
      have := lt_of_le_of_lt (le_zmax hz) h5.2
      unfold wrapS
      omega
    · intro _ lo hi hr z hz
      simp only [dtypeRange, Option.some.injEq, Prod.mk.injEq] at hr
      have := lt_of_lt_of_le h5.1 (zmin_le hz)
      have := lt_of_le_of_lt (le_zmax hz) h5.2
      omega
  · refine ⟨mapIval_id hwt (fun z hz => ?_), ?_⟩
    · have := lt_of_lt_of_le h6.1 (zmin_le hz)
      have := lt_of_le_of_lt (le_zmax hz) h6.2
      unfold wrapS
      omega
    · intro _ lo hi hr z hz
      simp only [dtypeRange, Option.some.injEq, Prod.mk.injEq] at hr
      have := lt_of_lt_of_le h6.1 (zmin_le hz)
      have := lt_of_le_of_lt (le_zmax hz) h6.2
      omega
  · refine ⟨mapIval_id hwt (fun z hz => ?_), ?_⟩
    · have := lt_of_lt_of_le h7.1 (zmin_le hz)
      have := lt_of_le_of_lt (le_zmax hz) h7.2
      unfold wrapS
      omega
    · intro _ lo hi hr z hz
      simp only [dtypeRange, Option.some.injEq, Prod.mk.injEq] at hr
      have := lt_of_lt_of_le h7.1 (zmin_le hz)
      have := lt_of_le_of_lt (le_zmax hz) h7.2
      omega
  · exact ⟨rfl, fun h => absurd rfl h⟩

/-- The `float64` branch preserves the column length, and changes each cell
by at most the pandas downcast tolerance `5e-4`. -/
theorem floatNarrow_spec (vs : List PCell) :
    (floatNarrow vs).values.length = vs.length ∧
    List.Forall₂ (fun ov nv => ∀ oq nq, ov = PCell.fval oq → nv = PCell.fval nq →
      |nq - oq| ≤ 1 / 2000) vs (floatNarrow vs).values := by
  unfold floatNarrow
  split_ifs with h
  · simp only [List.all_eq_true, decide_eq_true_eq] at h
    constructor
    · simp [mapFval]
    · rw [mapFval, List.forall₂_map_right_iff]
      rw [List.forall₂_same]
      intro v hv oq nq hov hnv
      subst hov
      have : nq = roundF32 oq := by
        simpa using hnv.symm
      subst this
      exact h oq (by
        simp only [floatsOf, List.mem_filterMap]
        exact ⟨PCell.fval oq, hv, rfl⟩)
  · constructor
    · rfl
    · rw [List.forall₂_same]
      intro v hv oq nq hov hnv
      rw [hov] at hnv
      have : oq = nq := by simpa using hnv
      subst this
      simp

/-- The object branch never changes cell values. -/
theorem objNarrow_spec (vs : List PCell) :
    (objNarrow vs).values = vs := by
  unfold objNarrow
  split_ifs <;> rfl

/-- Per-column summary of `optimize_dataframe_memory`. -/
theorem optimizeColumn_spec (c : PColumn) (hwt : wtColumn c = true) :
    (optimizeColumn c).values.length = c.values.length ∧
    (c.dtype = .int64 → (optimizeColumn c).values = c.values ∧
      ((optimizeColumn c).dtype ≠ .int64 →
        ∀ lo hi, dtypeRange (optimizeColumn c).dtype = some (lo, hi) →
          ∀ z ∈ intsOf c.values, lo ≤ z ∧ z ≤ hi)) ∧
    (c.dtype = .obj → (optimizeColumn c).values = c.values) ∧
    (c.dtype = .float64 →
      List.Forall₂ (fun ov nv => ∀ oq nq, ov = PCell.fval oq → nv = PCell.fval nq →
        |nq - oq| ≤ 1 / 2000) c.values (optimizeColumn c).values) ∧
    (c.dtype ≠ .int64 → c.dtype ≠ .float64 → c.dtype ≠ .obj → optimizeColumn c = c) := by
  rcases c with ⟨dt, vs⟩
  cases dt <;>
    simp only [optimizeColumn, wtColumn] at hwt ⊢
  case int64 =>
    refine ⟨by rw [(intNarrow_spec vs hwt).1], ?_, ?_, ?_, ?_⟩
    · intro _
      exact ⟨(intNarrow_spec vs hwt).1, (intNarrow_spec vs hwt).2⟩
    · intro h
      cases h
    · intro h
      cases h
    · intro h _ _
      exact absurd rfl h
  case float64 =>
    refine ⟨(floatNarrow_spec vs).1, ?_, ?_, ?_, ?_⟩
    · intro h
      cases h
    · intro h
      cases h
    · intro _
      exact (floatNarrow_spec vs).2
    · intro _ h _
      exact absurd rfl h
  case obj =>
    refine ⟨by rw [objNarrow_spec vs], ?_, ?_, ?_, ?_⟩
    · intro h
      cases h
    · intro _
      exact objNarrow_spec vs
    · intro h
      cases h
    · intro _ _ h
      exact absurd rfl h
  all_goals simp

/-- C10 (amended): `optimize_dataframe_memory` preserves the shape, the
column names in order, and every integer and object cell exactly; an integer
column is narrowed only to a dtype whose range contains all its values; a
`float64` column may be downcast to `float32`, replacing each cell by its
float32 rounding, which preserves cells only to within the `5e-4` downcast
tolerance rather than exactly; other dtypes are untouched. -/
theorem optimize_memory_amended (df : PDataFrame) (hwt : WellTypedPDF df) :
    ((optimize_dataframe_memory df).map (fun c => c.1) = df.map (fun c => c.1)) ∧
    (optimize_dataframe_memory df).length = df.length ∧
    (∀ pr ∈ df.zip (optimize_dataframe_memory df),
      pr.2.2.values.length = pr.1.2.values.length ∧
      (pr.1.2.dtype = .int64 → pr.2.2.values = pr.1.2.values ∧
        (pr.2.2.dtype ≠ .int64 →
          ∀ lo hi, dtypeRange pr.2.2.dtype = some (lo, hi) →
            ∀ z ∈ intsOf pr.1.2.values, lo ≤ z ∧ z ≤ hi)) ∧
      (pr.1.2.dtype = .obj → pr.2.2.values = pr.1.2.values) ∧
      (pr.1.2.dtype = .float64 →
        List.Forall₂ (fun ov nv => ∀ oq nq, ov = PCell.fval oq → nv = PCell.fval nq →
          |nq - oq| ≤ 1 / 2000) pr.1.2.values pr.2.2.values) ∧
      (pr.1.2.dtype ≠ .int64 → pr.1.2.dtype ≠ .float64 → pr.1.2.dtype ≠ .obj →
        pr.2.2 = pr.1.2)) := by
  have hwt' : ∀ c ∈ df, wtColumn c.2 = true := by
    intro c hc
    exact List.all_eq_true.mp hwt c hc
  unfold optimize_dataframe_memory
  split_ifs with hemp
  · refine ⟨rfl, rfl, ?_⟩
    have hzip : df.zip df = df.map (fun c => (c, c)) := by
      have h := List.zip_map' (α := String × PColumn) id id df
      rw [List.map_id] at h
      exact h
    rw [hzip]
    intro pr hpr
    obtain ⟨c, hc, rfl⟩ := List.mem_map.mp hpr
    refine ⟨rfl, fun hint => ⟨rfl, fun hne => absurd hint hne⟩, fun _ => rfl,
      fun _ => ?_, fun _ _ _ => rfl⟩
    rw [List.forall₂_same]
    intro v hv oq nq hov hnv
    rw [hov] at hnv
    have : oq = nq := by simpa using hnv
    subst this
    simp
  · refine ⟨by rw [List.map_map]; rfl, by rw [List.length_map], ?_⟩
    have hzip : df.zip (df.map (fun c => (c.1, optimizeColumn c.2))) =
        df.map (fun c => (c, (c.1, optimizeColumn c.2))) := by
      have h := List.zip_map' (α := String × PColumn) id
        (fun c => (c.1, optimizeColumn c.2)) df
      rw [List.map_id] at h
      exact h
    rw [hzip]
    intro pr hpr
    obtain ⟨c, hc, rfl⟩ := List.mem_map.mp hpr
    have hs := optimizeColumn_spec c.2 (hwt' c hc)
    exact ⟨hs.1, hs.2.1, hs.2.2.1, hs.2.2.2.1, hs.2.2.2.2⟩

/-- The float32 rounding of the float64 value `1 + 2^-24` is `1` (the tie
between the neighbouring float32 values `1` and `1 + 2^-23` goes to the even
mantissa). -/
theorem roundF32_one_plus_eps : roundF32 (16777217 / 16777216) = 1 := by
  have hlog : Int.log 2 |(16777217 / 16777216 : ℚ)| = 0 := by
    rw [abs_of_pos (by norm_num)]
    rw [Int.log_of_one_le_right _ (by norm_num)]
    have hfl : ⌊(16777217 / 16777216 : ℚ)⌋₊ = 1 := by
      rw [Nat.floor_eq_iff (by norm_num)]
      norm_num
    rw [hfl, Nat.log_one_right]
    norm_num
  rw [roundF32, if_neg (by norm_num), if_neg (by norm_num), hlog]
  rw [abs_of_pos (by norm_num)]
  norm_num [rhe, Int.fract]

/-- C10 (counterexample): `optimize_dataframe_memory` does not preserve every
cell value: on a single-cell `float64` column holding `1 + 2^-24` (a value
exactly representable in float64 but not in float32, with rounding error
`2^-24 ≤ 5e-4`), the downcast is accepted and the cell becomes `1`. -/
theorem optimize_memory_not_value_preserving :
    pdfCells (optimize_dataframe_memory
      [("x", ⟨.float64, [.fval (16777217 / 16777216)]⟩)]) ≠
    pdfCells [("x", ⟨.float64, [.fval (16777217 / 16777216)]⟩)] := by
  have hguard : (floatsOf [PCell.fval (16777217 / 16777216)]).all
      (fun q => decide (|roundF32 q - q| ≤ 1 / 2000)) = true := by
    have : floatsOf [PCell.fval (16777217 / 16777216)] = [16777217 / 16777216] := rfl
    rw [this]
    simp only [List.all_cons, List.all_nil, Bool.and_true, decide_eq_true_eq]
    rw [roundF32_one_plus_eps]
    rw [abs_of_nonpos (by norm_num)]
    norm_num
  have hopt : optimize_dataframe_memory
      [("x", ⟨.float64, [.fval (16777217 / 16777216)]⟩)] =
      [("x", ⟨.float32, [.fval 1]⟩)] := by
    unfold optimize_dataframe_memory
    rw [if_neg (by decide)]
    simp only [List.map]
    unfold optimizeColumn
    unfold floatNarrow
    rw [if_pos hguard]
    simp [mapFval, roundF32_one_plus_eps]
  rw [hopt]
  simp only [pdfCells, List.map, ne_eq, List.cons.injEq, Prod.mk.injEq,
    PCell.fval.injEq, and_true, true_and]
  intro h
  norm_num at h

/-- C10 (amended) witness: a concrete well-typed dataframe with an `int64`
column that the guards narrow. -/
theorem optimize_memory_amended_witness :
    WellTypedPDF [("a", ⟨.int64, [.ival 5, .ival 300]⟩)] ∧
    ((optimize_dataframe_memory [("a", ⟨.int64, [.ival 5, .ival 300]⟩)]).map
        (fun c => c.1) =
      ([("a", (⟨.int64, [.ival 5, .ival 300]⟩ : PColumn))]).map (fun c => c.1)) := by
  refine ⟨by unfold WellTypedPDF; decide, ?_⟩
  exact (optimize_memory_amended [("a", ⟨.int64, [.ival 5, .ival 300]⟩)]
    (by unfold WellTypedPDF; decide)).1
